import Mathlib

/-!
Verification development for the TITAN HIV agent-based simulator core.

The Python sources under src/ are embedded shallowly:
pure functions become Lean functions over exact rational arithmetic,
stateful methods become explicit state-passing functions, and the two
seeded random streams become explicit draw functions (a cursor indexes
the next draw).  Fallible Python code (raise / assert) is embedded with
Except.  Machine floats are modelled by the rationals; the only
transcendental expression in scope (an exponential inside the injectable
PrEP risk reduction) is modelled by a parameter function, as is every
lookup whose defining file (agent.py, the legacy probabilities.py) is
not part of src.
-/

namespace Titan

/-- Agent record, following the data model of the spec and the attribute
reads and writes performed by src/titan/ABM_core.py.  Partner sets are
lists of agent ids. -/
structure Agent where
  id : Nat
  race : String
  so : String
  du : String
  hiv : Bool
  hivTime : Int
  aids : Bool
  tested : Bool
  haart : Bool
  haartAdh : Nat
  haartTime : Int
  incar : Bool
  incarTime : Int
  everIncar : Bool
  incarTreatmentTime : Int
  prepBool : Bool
  prepTime : Int
  prepAdh : Nat
  prepLoad : Rat
  prepLastDose : Int
  prepResistance : Bool
  prepReason : List String
  treatment : Bool
  msmw : Bool
  sne : Bool
  highrisk : Bool
  everHighrisk : Bool
  highriskTime : Int
  meanNumPartners : Rat
  timeAlive : Int
  partners : List Nat
  deriving Repr, DecidableEq

/-- Model-level agent sets and bookkeeping lists of HIVModel
(src/titan/ABM_core.py __init__), holding agent ids. -/
structure Sets where
  numAll : Nat
  hivAgents : List Nat
  newInfections : List Nat
  trtPrEP : List Nat
  newPrEP : List Nat
  trtART : List Nat
  trtTstd : List Nat
  newDiagnosis : List Nat
  hivAids : List Nat
  incarcerated : List Nat
  newIncarRelease : List Nat
  highriskAgents : List Nat
  newHRrolls : List Nat
  totalIncarcerated : Nat
  acuteAgents : List Nat
  transmitFrom : List Nat
  transmitTo : List Nat
  deriving Repr, DecidableEq

/-- Agent_set.add_agent: membership containers; adding an already present
agent is a no-op (set semantics on id lists). -/
def addTo (l : List Nat) (x : Nat) : List Nat :=
  if x ∈ l then l else l ++ [x]

/-- Agent_set.remove_agent: removing an absent agent is a no-op. -/
def removeFrom (l : List Nat) (x : Nat) : List Nat :=
  l.filter (fun y => y ≠ x)

/-- Parameter tree slice used by the embedded code.  String-keyed leaf
lookups from params.py / DemographicParams become function fields.
Fields marked (spec-modelled) stand for code whose defining file is not
under src: agent.py lookups (per-act transmission probability, acute
status, sex-act distribution, PrEP eligibility, injectable load update)
and the legacy probabilities.py tables (jail duration bins, adherence
probability, the floating point exponential in the injectable PrEP
reduction), each modelled per the words of the spec. -/
structure Params where
  needleShare : String → String → Rat
  numSexActsParam : String → String → Rat
  calNeedleActScaling : Rat
  safeNeedleExchangePrev : Rat
  unsafeSexParam : String → String → Rat
  condomUseType : String
  calSexualActScaling : Rat
  prepType : String
  prepAdhEffic : Rat
  prepNonAdhEffic : Rat
  prepResist : Rat
  hivMSMW : Rat
  flagIncar : Bool
  flagPrEP : Bool
  flagART : Bool
  flagHR : Bool
  flagStaticN : Bool
  prepStartT : Int
  prepTargetModel : String
  prepTargetProb : Rat
  prepClinicCat : String
  prepFalloutT : Int
  prepAdherenceProb : Rat
  setting : String
  prepPeakLoad : Rat
  demographicPrepAdh : String → String → Rat
  prepDisc : String → String → Rat
  hivTestParam : String → String → Rat
  calTestFreq : Rat
  haartPrev : String → String → Rat
  haartAdhParam : String → String → Rat
  haartDisc : String → String → Rat
  calARTcov : Rat
  incTreatRIC : Bool
  incTreatHRsexBeh : Bool
  incTreatIDUBeh : Bool
  incTreatmentStartdate : Int
  incTreatmentDur : Int
  modelName : String
  hrPartnerScale : Rat
  hrMdur : Int
  hrFdur : Int
  hrProportion : Rat
  incarParam : String → String → Rat
  calIncarP : Rat
  incPrisTestProb : Rat
  incARTenroll : Rat
  incARTadh : Rat
  incARTdisc : Rat
  calProgAIDS : Rat
  /-- Modelled from the spec: sex-specific jail duration bin table
  (legacy probabilities.py is not under src); cumulative probability,
  then uniform stay within the matched bin. -/
  jailBinProb : String → Nat → Rat
  jailBinMin : String → Nat → Nat
  jailBinMax : String → Nat → Nat
  jailBinCount : Nat
  /-- Modelled from the spec: adherence_prob maps the 1..5 adherence
  class to an AIDS progression probability (legacy probabilities.py is
  not under src). -/
  adherenceProbParam : Nat → Rat
  /-- Modelled from the spec: agent.get_transmission_probability picks
  the per-act probability for the interaction kind from the lookup keyed
  by race and sex type, times the acute multiplier (agent.py is not
  under src). -/
  getTransmissionProb : Agent → String → Rat
  /-- Modelled from the spec: agent.get_acute_status, true while
  hiv_time is inside the acute window (agent.py is not under src). -/
  getAcuteStatus : Agent → Int → Bool
  /-- Modelled from the spec: agent.get_number_of_sexActs draws from the
  sex-act bin distribution using one uniform draw (agent.py is not
  under src). -/
  getNumSexActs : Agent → Rat → Rat
  /-- Modelled from the spec: agent.PrEP_eligible per the targeting
  model (agent.py is not under src). -/
  prepEligible : Agent → Int → Bool
  /-- Modelled from the spec: multiplicative per-step decay factor of
  the injectable PrEP load (agent.update_PrEP_load; agent.py is not
  under src). -/
  prepLoadDecay : Rat
  /-- Models the float expression 1 - exp(-5.528636721 * load) of
  ABM_core._sex_transmission as a function of the load (floating point
  transcendental). -/
  injReduction : Rat → Rat
  /-- Modelled from the spec: prob.unsafe_sex, a monotone function of
  the accumulated relationship sex acts (legacy probabilities.py is not
  under src). -/
  unsafeSexFn : Nat → Rat

/-- Random draw streams: flt models runRandom.random() (uniform in
[0,1)), intDraw models the entropy behind runRandom.randint, pois
models a scipy poisson.rvs draw with the given mean.  A single cursor
indexes consumption so replay is deterministic. -/
structure Rng where
  flt : Nat → Rat
  intDraw : Nat → Nat
  pois : Nat → Rat → Nat

/-- Python random.randint(a, b): both endpoints included; the result is
a + (entropy mod the size of the range). -/
def randint (a b : Int) (r : Nat) : Int :=
  a + ((r % (b - a + 1).toNat : Nat) : Int)

/-! ## src/titan/utils.py -/

/-- utils.binom_0: mirrors scipy binom.pmf(0, n, p) = (1-p)^n. -/
def binom_0 (n : Nat) (p : Rat) : Rat :=
  (1 - p) ^ n

/-- utils.total_probability: per-act probability and act count to total
probability (src/titan/utils.py lines 205-221). -/
def total_probability (p : Rat) (num_acts : Int) : Rat :=
  if num_acts = 1 then p
  else if num_acts ≥ 1 then 1 - binom_0 num_acts.toNat p
  else 0

/-- utils.safe_divide (src/titan/utils.py lines 29-43). -/
def safe_divide (numerator : Int) (denominator : Int) : Rat :=
  if denominator = 0 then 0
  else (numerator : Rat) / (denominator : Rat)

/-- utils.get_check_rand_int (src/titan/utils.py lines 11-26).  The
argument is none when the Python value is not an int; r is the entropy
behind random.randint(1, 1000000). -/
def get_check_rand_int (seed : Option Int) (r : Nat) : Except String Int :=
  match seed with
  | none => .error "Random seed must be positive integer"
  | some s =>
    if s < 0 then .error "Random seed must be positive integer"
    else if s = 0 then .ok (randint 1 1000000 r)
    else .ok s

/-! ## src/titan/partnering.py -/

/-- partnering.sex_possible (src/titan/partnering.py lines 96-120):
valid sex types are checked against the enumeration, then mutual
sleeps_with membership is required in both directions. -/
def sex_possible (sexTypes : List String) (sleepsWith : String → List String)
    (agent_sex_type partner_sex_type : String) : Except String Bool :=
  if agent_sex_type ∉ sexTypes then
    .error "Invalid agent_sex_type!"
  else if partner_sex_type ∉ sexTypes then
    .error "Invalid partner_sex_type!"
  else
    .ok (decide (agent_sex_type ∈ sleepsWith partner_sex_type)
      && decide (partner_sex_type ∈ sleepsWith agent_sex_type))

/-! ## src/titan/population.py : partnerability -/

/-- Population.update_partnerability for one agent and one bond type
(src/titan/population.py lines 483-496), reduced to the data it reads:
current membership, partner count, target, and the calibration buffer.
Returns the membership after the call. -/
def update_partnerability (inSet : Bool) (numPartners target : Nat)
    (buffer : Rat) : Bool :=
  if inSet then
    if (numPartners : Rat) > (target : Rat) * buffer then false else true
  else
    if (numPartners : Rat) < (target : Rat) * buffer then true else false

/-- Membership update of the newly bonded partner inside
Population.update_agent_partners (src/titan/population.py lines
420-424): the partner, which was in the partnerable set, is removed only
when its partner count strictly exceeds target times buffer.  The
seeking agent itself is not updated there. -/
def update_agent_partners_partner_stays (numPartners target : Nat)
    (buffer : Rat) : Bool :=
  if (numPartners : Rat) > (target : Rat) * buffer then false else true

/-! ## src/titan/ABM_core.py : death and replacement -/

/-- HIVModel._die_and_replace death decision for one agent
(src/titan/ABM_core.py lines 1152-1163).  The source reads
if agent._incar_bool: pass
which does not skip the agent: control falls through to the Bernoulli
death trial in both branches. -/
def die_and_replace_dies (a : Agent) (deathRate : Rat) (draw : Rat) : Bool :=
  if a.incar then
    draw < deathRate
  else
    draw < deathRate

/-- HIVModel._die_and_replace replacement demographics
(src/titan/ABM_core.py lines 1178-1180): the replacement is created with
the race and sex type of the dead agent. -/
def die_and_replace_replacement (a : Agent) : String × String :=
  (a.race, a.so)

/-! ## src/titan/ABM_core.py : PrEP state -/

/-- Modelled from the spec: agent.update_PrEP_load (agent.py is not
under src): the injectable PrEP load decays exponentially each step and
the time since last dose advances; no other field changes. -/
def update_PrEP_load (p : Params) (a : Agent) : Agent :=
  { a with prepLastDose := a.prepLastDose + 1,
           prepLoad := a.prepLoad * p.prepLoadDecay }

/-- HIVModel._discont_PrEP (src/titan/ABM_core.py lines 970-1000).  The
leading assert agent._PrEP_bool holds at every call site in src; the
body is embedded as is. -/
def discont_PrEP (p : Params) (rng : Rng) (c : Nat) (force : Bool)
    (a : Agent) (s : Sets) : Agent × Sets × Nat :=
  let r :=
    if force then
      ({ a with prepBool := false, prepReason := [], prepTime := 0 },
       { s with trtPrEP := removeFrom s.trtPrEP a.id }, c)
    else if a.prepTime > 0 then
      ({ a with prepTime := a.prepTime - 1 }, s, c)
    else if a.prepBool = true ∧ a.prepTime = 0 then
      let d := rng.flt c
      if d < p.prepDisc a.race a.so then
        let a1 := { a with prepTime := p.prepFalloutT }
        let s1 := { s with trtPrEP := removeFrom s.trtPrEP a.id }
        if p.prepType = "Oral" then
          ({ a1 with prepBool := false, prepReason := [] }, s1, c + 1)
        else (a1, s1, c + 1)
      else
        if a.prepLastDose > 2 then ({ a with prepLastDose := -1 }, s, c + 1)
        else (a, s, c + 1)
    else (a, s, c)
  if p.prepType = "Inj" then (update_PrEP_load p r.1, r.2.1, r.2.2)
  else r

/-- Conversion part of HIVModel._become_HIV (src/titan/ABM_core.py
lines 692-699): on an HIV-negative agent set the flag and timer, add to
the new-infection and HIV sets, and on a positive PrEP fallout timer
draw for resistance. -/
def become_HIV_core (p : Params) (rng : Rng) (c : Nat) (a : Agent)
    (s : Sets) : Agent × Sets × Nat :=
  if a.hiv = false then
    let a1 := { a with hiv := true, hivTime := 1 }
    let s1 := { s with newInfections := addTo s.newInfections a.id,
                       hivAgents := addTo s.hivAgents a.id }
    if a1.prepTime > 0 then
      let d := rng.flt c
      if d < p.prepResist then
        ({ a1 with prepResistance := true }, s1, c + 1)
      else (a1, s1, c + 1)
    else (a1, s1, c)
  else (a, s, c)

/-- HIVModel._become_HIV (src/titan/ABM_core.py lines 682-702): the
conversion part followed by forced PrEP discontinuation for an enrolled
agent. -/
def become_HIV (p : Params) (rng : Rng) (c : Nat) (a : Agent) (s : Sets) :
    Agent × Sets × Nat :=
  let r := become_HIV_core p rng c a s
  if r.1.prepBool then discont_PrEP p rng r.2.2 true r.1 r.2.1
  else r

/-! ## src/titan/ABM_core.py : needle transmission -/

/-- Unsafe needle share probability (src/titan/ABM_core.py lines
562-572): 0.02 for an agent enrolled in syringe exchange, else the
needle share parameter scaled by the safe needle exchange prevalence. -/
def needle_unsafe_prob (p : Params) (sne : Bool) (race so : String) : Rat :=
  if sne then 2/100 else p.needleShare race so * p.safeNeedleExchangePrev

/-- Share act count (src/titan/ABM_core.py lines 562-567): the Poisson
draw is clamped to at least 1 only in the non syringe-exchange branch. -/
def needle_share_acts (sne : Bool) (drawn : Nat) : Nat :=
  if sne then drawn else max drawn 1

/-- Retention loop (src/titan/ABM_core.py lines 574-576): one uniform
draw per act; an act is dropped when its draw exceeds p_unsafe, so the
retained count is the act count minus the number of draws above
p_unsafe.  The Python range is evaluated once, before decrements. -/
def needle_retained (flt : Nat → Rat) (c : Nat) (pUnsafe : Rat)
    (acts : Nat) : Nat :=
  acts - (List.range acts).countP (fun k => decide (flt (c + k) > pUnsafe))

/-- Total transmission probability of the needle and sex interactions
(src/titan/ABM_core.py lines 581-585 and 668-672): the per act
probability for a single act, else one minus binom.pmf(0, n, p). -/
def p_total_transmission (n : Nat) (pr : Rat) : Rat :=
  if n = 1 then pr else 1 - binom_0 n pr

/-- HIVModel._needle_transmission (src/titan/ABM_core.py lines
534-593).  The asserts (source HIV+, partner susceptible, both IDU)
hold at the call site in _agents_interact; the source agent is only
read.  Returns the updated partner, sets and cursor. -/
def needle_transmission (p : Params) (rng : Rng) (c : Nat) (time : Int)
    (agent partner : Agent) (s : Sets) : Agent × Sets × Nat :=
  let meanActs := p.numSexActsParam agent.race agent.so * p.calNeedleActScaling
  let drawn := rng.pois c meanActs
  let c := c + 1
  let pUnsafe := needle_unsafe_prob p agent.sne agent.race agent.so
  let acts := needle_share_acts agent.sne drawn
  let retained := needle_retained rng.flt c pUnsafe acts
  let c := c + acts
  if retained ≥ 1 then
    let pr := p.getTransmissionProb agent "NEEDLE"
    let pTot := p_total_transmission retained pr
    let d := rng.flt c
    let c := c + 1
    if d < pTot then
      let r := become_HIV p rng c partner s
      let s1 := { r.2.1 with
        transmitFrom := r.2.1.transmitFrom ++ [agent.id],
        transmitTo := r.2.1.transmitTo ++ [r.1.id] }
      let s2 := if p.getAcuteStatus agent time then
                 { s1 with acuteAgents := s1.acuteAgents ++ [agent.id] }
               else s1
      (r.1, s2, r.2.2)
    else (partner, s, c)
  else (partner, s, c)

/-! ## src/titan/ABM_core.py : sex transmission -/

/-- Core of HIVModel._sex_transmission once the HIV+ agent and the
susceptible partner are fixed (src/titan/ABM_core.py lines 620-680).
Returns the updated partner, relationship total sex acts, sets and
cursor. -/
def sex_core (p : Params) (rng : Rng) (c : Nat) (time : Int)
    (agent partner : Agent) (tot : Nat) (s : Sets) :
    Agent × Nat × Sets × Nat :=
  if partner.hiv then (partner, tot, s, c)
  else
    let mActs := p.getNumSexActs agent (rng.flt c) * p.calSexualActScaling
    let c := c + 1
    let t := rng.pois c mActs
    let c := c + 1
    let pUnsafe := if p.condomUseType = "Race" then
                     p.unsafeSexParam agent.race agent.so
                   else p.unsafeSexFn tot
    let u := t - (List.range t).countP (fun k => decide (rng.flt (c + k) < pUnsafe))
    let c := c + t
    if u ≥ 1 then
      let tot := tot + u
      let ppAct0 := p.getTransmissionProb agent "SEX"
      let ppAct :=
        if partner.prepBool then
          if partner.prepResistance then ppAct0
          else if p.prepType = "Oral" then
            if partner.prepAdh = 1 then ppAct0 * (1 - p.prepAdhEffic)
            else ppAct0 * (1 - p.prepNonAdhEffic)
          else if p.prepType = "Inj" then
            if partner.prepAdh = 1 then ppAct0 * (1 - p.injReduction partner.prepLoad)
            else ppAct0
          else ppAct0
        else ppAct0
      let pTot := p_total_transmission u ppAct
      let d := rng.flt c
      let c := c + 1
      if d < pTot then
        let s1 := { s with transmitFrom := s.transmitFrom ++ [agent.id],
                           transmitTo := s.transmitTo ++ [partner.id] }
        let r := become_HIV p rng c partner s1
        let s2 := if p.getAcuteStatus agent time then
                   { r.2.1 with acuteAgents := r.2.1.acuteAgents ++ [agent.id] }
                 else r.2.1
        (r.1, tot, s2, r.2.2)
      else (partner, tot, s, c)
    else (partner, tot, s, c)

/-- HIVModel._sex_transmission (src/titan/ABM_core.py lines 595-680):
the HIV+ endpoint is taken in relationship slot order; an error is
raised when neither endpoint is HIV+. -/
def sex_transmission (p : Params) (rng : Rng) (c : Nat) (time : Int)
    (a1 a2 : Agent) (tot : Nat) (s : Sets) :
    Except String (Agent × Agent × Nat × Sets × Nat) :=
  if a1.hiv then
    let r := sex_core p rng c time a1 a2 tot s
    .ok (a1, r.1, r.2.1, r.2.2.1, r.2.2.2)
  else if a2.hiv then
    let r := sex_core p rng c time a2 a1 tot s
    .ok (r.1, a2, r.2.1, r.2.2.1, r.2.2.2)
  else .error "rel must have an agent with HIV"

/-! ## src/src/ABM_partnering.py : legacy sex_possible -/

/-- Legacy sex_possible (src/src/ABM_partnering.py lines 414-456),
imported by ABM_core: hard coded compatibility over the four sex types,
with input validation and the HM-HM sanity check. -/
def sex_possible_classic (agent_sex_type partner_sex_type : String) :
    Except String Bool :=
  if agent_sex_type ∉ ["HM", "HF", "MSM", "WSW"] then
    .error "Invalid agent_sex_type!"
  else if partner_sex_type ∉ ["HM", "HF", "MSM", "WSW"] then
    .error "Invalid partner_sex_type!"
  else
    let sp :=
      if agent_sex_type = "HM" ∧ (partner_sex_type = "HF" ∨ partner_sex_type = "WSW") then
        true
      else if agent_sex_type = "MSM" ∧
          (partner_sex_type = "MSM" ∨ partner_sex_type = "WSW" ∨ partner_sex_type = "HF") then
        true
      else if agent_sex_type = "WSW" ∧
          (partner_sex_type = "MSM" ∨ partner_sex_type = "WSW" ∨ partner_sex_type = "HM") then
        true
      else if agent_sex_type = "HF" ∧
          (partner_sex_type = "HM" ∨ partner_sex_type = "MSM") then
        true
      else false
    if agent_sex_type = "HM" ∧ partner_sex_type = "HM" ∧ sp = true then
      .error "Check _sex_possible method!"
    else .ok sp

/-! ## src/titan/ABM_core.py : agents_interact -/

/-- HIVModel._agents_interact (src/titan/ABM_core.py lines 464-532):
skip when either endpoint is incarcerated; require exactly one HIV+
endpoint; then dispatch on drug types to needle and/or sex
transmission, raising on an invalid drug type pair. -/
def agents_interact (p : Params) (rng : Rng) (c : Nat) (time : Int)
    (a1 a2 : Agent) (tot : Nat) (s : Sets) :
    Except String (Agent × Agent × Nat × Sets × Nat) :=
  if a1.incar ∨ a2.incar then .ok (a1, a2, tot, s, c)
  else if a1.hiv = a2.hiv then .ok (a1, a2, tot, s, c)
  else
    let agentFirst := a1.hiv
    let agent := if agentFirst then a1 else a2
    let partner := if agentFirst then a2 else a1
    match sex_possible_classic agent.so partner.so with
    | .error e => .error e
    | .ok sp =>
      if partner.du = "IDU" ∧ agent.du = "IDU" then
        if agent.incarTreatmentTime > 0 ∧ p.incTreatIDUBeh then
          .ok (a1, a2, tot, s, c)
        else if sp then
          let d := rng.flt c
          let c := c + 1
          let r := needle_transmission p rng c time agent partner s
          let b1 := if agentFirst then a1 else r.1
          let b2 := if agentFirst then r.1 else a2
          if d < 1/4 then .ok (b1, b2, tot, r.2.1, r.2.2)
          else sex_transmission p rng r.2.2 time b1 b2 tot r.2.1
        else
          let r := needle_transmission p rng c time agent partner s
          let b1 := if agentFirst then a1 else r.1
          let b2 := if agentFirst then r.1 else a2
          .ok (b1, b2, tot, r.2.1, r.2.2)
      else if partner.du = "NIDU" ∨ partner.du = "NDU" ∨
          agent.du = "NIDU" ∨ agent.du = "NDU" then
        if sp then sex_transmission p rng c time a1 a2 tot s
        else .ok (a1, a2, tot, s, c)
      else .error "Agents must be either IDU, NIDU, or ND"

/-! ## src/titan/ABM_core.py : testing, HAART, AIDS, PrEP initiation -/

/-- HIVModel._HIVtest (src/titan/ABM_core.py lines 871-897). -/
def hiv_test (p : Params) (rng : Rng) (c : Nat) (a : Agent) (s : Sets) :
    Agent × Sets × Nat :=
  if a.tested then (a, s, c)
  else
    let tp := p.hivTestParam a.race a.so * p.calTestFreq
    if rng.flt c < tp then
      ({ a with tested := true },
       { s with newDiagnosis := addTo s.newDiagnosis a.id,
                trtTstd := addTo s.trtTstd a.id }, c + 1)
    else (a, s, c + 1)

/-- HAART adherence draw (src/titan/ABM_core.py lines 925-928 and
similar sites): 5 with the given probability, else uniform in 1..4. -/
def draw_adherence (prAdh : Rat) (rng : Rng) (c : Nat) : Nat × Nat :=
  if rng.flt c < prAdh then (5, c + 1)
  else ((randint 1 4 (rng.intDraw (c + 1))).toNat, c + 2)

/-- HIVModel._update_HAART (src/titan/ABM_core.py lines 899-968); the
assert agent._HIV_bool holds at the call site. -/
def update_HAART (p : Params) (rng : Rng) (c : Nat) (time : Int)
    (a : Agent) (s : Sets) : Agent × Sets × Nat :=
  let agentHaart := a.haart
  let r0 :=
    if time = 0 ∧ agentHaart ∧ a.haartAdh = 0 then
      let ad := draw_adherence (p.haartAdhParam a.race a.so) rng c
      ({ a with haartAdh := ad.1, haartTime := time }, ad.2)
    else (a, c)
  let a := r0.1
  let c := r0.2
  if time ≥ 0 ∧ a.tested then
    if ¬agentHaart ∧ a.haartTime = 0 then
      let d := rng.flt c
      if d < p.haartPrev a.race a.so * p.calARTcov then
        let ad := draw_adherence (p.haartAdhParam a.race a.so) rng (c + 1)
        ({ a with haart := true, haartAdh := ad.1, haartTime := time },
         { s with trtART := addTo s.trtART a.id }, ad.2)
      else (a, s, c + 1)
    else if agentHaart then
      let d := rng.flt c
      if d < p.haartDisc a.race a.so then
        if ¬(a.incarTreatmentTime > 0 ∧ p.incTreatRIC) then
          ({ a with haart := false, haartAdh := 0, haartTime := 0 },
           { s with trtART := removeFrom s.trtART a.id }, c + 1)
        else (a, s, c + 1)
      else (a, s, c + 1)
    else (a, s, c)
  else (a, s, c)

/-- HIVModel._progress_to_AIDS (src/titan/ABM_core.py lines 1129-1145). -/
def progress_to_AIDS (p : Params) (rng : Rng) (c : Nat) (a : Agent)
    (s : Sets) : Except String (Agent × Sets × Nat) :=
  if ¬a.hiv then .error "AIDS only valid for HIV agents!"
  else if ¬a.haart then
    let pr := p.adherenceProbParam a.haartAdh
    if rng.flt c < pr * p.calProgAIDS then
      .ok ({ a with aids := true },
           { s with hivAids := addTo s.hivAids a.id }, c + 1)
    else .ok (a, s, c + 1)
  else .ok (a, s, c)

/-- Inner _enrollPrEP of HIVModel._initiate_PrEP (src/titan/ABM_core.py
lines 1018-1042). -/
def enroll_PrEP (p : Params) (rng : Rng) (c : Nat) (a : Agent) (s : Sets) :
    Agent × Sets × Nat :=
  let a := { a with prepBool := true, prepTime := 0 }
  let s := { s with trtPrEP := addTo s.trtPrEP a.id,
                    newPrEP := addTo s.newPrEP a.id }
  let d := rng.flt c
  let c := c + 1
  let adh :=
    if p.setting = "AtlantaMSM" then
      if d < p.demographicPrepAdh a.race a.so then 1 else 0
    else
      if d < p.prepAdherenceProb then 1 else 0
  let a := { a with prepAdh := adh }
  if p.prepType = "Inj" then
    ({ a with prepLoad := p.prepPeakLoad, prepLastDose := 0 }, s, c)
  else (a, s, c)

/-- HIVModel._initiate_PrEP (src/titan/ABM_core.py lines 1002-1088):
no-op on an HIV+ or already enrolled agent, else enroll by force or per
the targeting model against the PrEP target. -/
def initiate_PrEP (p : Params) (rng : Rng) (c : Nat) (time : Int)
    (force : Bool) (a : Agent) (s : Sets) : Agent × Sets × Nat :=
  if a.prepBool ∨ a.hiv then (a, s, c)
  else if force then enroll_PrEP p rng c a s
  else
    let numPrEP := s.trtPrEP.length
    let targetQ : Rat :=
      if p.prepTargetModel = "Clinical" then
        ((s.numAll : Rat) - (s.hivAgents.length : Rat)) * p.prepTargetProb
      else
        ((Int.floor (((s.numAll : Rat) - (s.hivAgents.length : Rat)) *
          p.prepTargetProb) : Int) : Rat)
    if p.prepClinicCat = "Racial" ∧ a.race = "BLACK" then
      if rng.flt c < p.prepTargetProb then enroll_PrEP p rng (c + 1) a s
      else (a, s, c + 1)
    else if p.prepTargetModel = "Incar" ∨ p.prepTargetModel = "IncarHR" then
      if rng.flt c < p.prepTargetProb then enroll_PrEP p rng (c + 1) a s
      else (a, s, c + 1)
    else if (numPrEP : Rat) < targetQ ∧ time ≥ p.prepStartT ∧
        p.prepEligible a time then
      enroll_PrEP p rng c a s
    else (a, s, c)

/-! ## src/titan/ABM_core.py : incarceration -/

/-- Function override of one agent in the id-indexed population. -/
def setAgent (pop : Nat → Agent) (i : Nat) (a : Agent) : Nat → Agent :=
  fun j => if j = i then a else pop j

/-- Jail duration bin selection (src/titan/ABM_core.py lines 815-819):
starting from bin 0 and cumulative 0, advance while the draw exceeds
the cumulative probability.  The table is finite; the fuel mirrors its
bin count. -/
def select_jail_bin_go (probs : Nat → Rat) (pv cum : Rat) (bin fuel : Nat) : Nat :=
  match fuel with
  | 0 => bin
  | fuel + 1 =>
    if pv > cum then
      select_jail_bin_go probs pv (cum + probs (bin + 1)) (bin + 1) fuel
    else bin

/-- Jail duration bin for a sex type (src/titan/ABM_core.py lines
810-819). -/
def select_jail_bin (p : Params) (so : String) (pv : Rat) : Nat :=
  select_jail_bin_go (p.jailBinProb so) pv 0 0 (p.jailBinCount + 1)

/-- PrEP offer to an HIV-negative partner (src/titan/ABM_core.py lines
363-365 and 862-868 share this shape). -/
def hr_partner_step (p : Params) (rng : Rng) (time : Int)
    (acc : (Nat → Agent) × Sets × Nat) (pid : Nat) :
    (Nat → Agent) × Sets × Nat :=
  let (pop, s, c) := acc
  let t := pop pid
  if ¬t.hiv then
    let r2 := initiate_PrEP p rng c time false t s
    (setAgent pop pid r2.1, r2.2.1, r2.2.2)
  else (pop, s, c)

/-- High risk cascade for one partner of a newly incarcerated agent
(src/titan/ABM_core.py lines 849-861). -/
def incar_partner_hr (p : Params) (rng : Rng)
    (acc : (Nat → Agent) × Sets × Nat) (pid : Nat) :
    (Nat → Agent) × Sets × Nat :=
  let (pop, s, c) := acc
  let t := pop pid
  if ¬t.highrisk then
    let d := rng.flt c
    let c := c + 1
    if d < p.hrProportion then
      let s := { s with highriskAgents := addTo s.highriskAgents pid,
                        newHRrolls := if ¬t.everHighrisk then
                            addTo s.newHRrolls pid
                          else s.newHRrolls }
      let t := { t with meanNumPartners := t.meanNumPartners + p.hrPartnerScale,
                        highrisk := true, everHighrisk := true,
                        highriskTime := p.hrFdur }
      (setAgent pop pid t, s, c)
    else (pop, s, c)
  else (pop, s, c)

/-- Partner side effects of a new incarceration (src/titan/ABM_core.py
lines 848-868): each partner may enter high risk, and may be offered
PrEP under the Incar targeting models. -/
def incar_partner_step (p : Params) (rng : Rng) (time : Int)
    (acc : (Nat → Agent) × Sets × Nat) (pid : Nat) :
    (Nat → Agent) × Sets × Nat :=
  let r1 := incar_partner_hr p rng acc pid
  if p.flagPrEP ∧ (p.prepTargetModel = "Incar" ∨ p.prepTargetModel = "IncarHR") then
    hr_partner_step p rng time r1 pid
  else r1

/-- Agent-level effects of the ongoing incarceration step
(src/titan/ABM_core.py lines 752-802): decrement the timer and, when
the pre-decrement timer is 1, release the agent with the Incar-model
high risk, treatment window, and HAART discontinuation effects. -/
def incarcerate_ongoing_agent (p : Params) (rng : Rng) (c : Nat)
    (time : Int) (aid : Nat) (a0 : Agent) (s : Sets) :
    Agent × Sets × Nat :=
  let hivB := a0.hiv
  let incarT := a0.incarTime
  let haartB := a0.haart
  let a := { a0 with incarTime := a0.incarTime - 1 }
  if incarT = 1 then
    let s := { s with incarcerated := removeFrom s.incarcerated aid,
                      newIncarRelease := addTo s.newIncarRelease aid }
    let a := { a with incar := false, everIncar := true }
    if p.modelName = "Incar" then
      let r1 :=
        if ¬a.highrisk ∧ p.flagHR then
          if p.incTreatHRsexBeh ∧ hivB ∧ time ≥ p.incTreatmentStartdate then
            (a, s)
          else
            let s := { s with highriskAgents := addTo s.highriskAgents aid,
                              newHRrolls := if ¬a.everHighrisk then
                                  addTo s.newHRrolls aid
                                else s.newHRrolls }
            let a := { a with
              meanNumPartners := a.meanNumPartners + p.hrPartnerScale,
              highrisk := true, everHighrisk := true,
              highriskTime := p.hrMdur }
            (a, s)
        else (a, s)
      let a := r1.1
      let s := r1.2
      let a :=
        if (p.incTreatRIC ∨ p.incTreatHRsexBeh ∨ p.incTreatIDUBeh) ∧
            time ≥ p.incTreatmentStartdate then
          { a with incarTreatmentTime := p.incTreatmentDur }
        else a
      if hivB ∧ haartB then
        let d := rng.flt c
        let c := c + 1
        if d > p.incARTdisc then (a, s, c)
        else
          ({ a with haart := false, haartAdh := 0 },
           { s with trtART := removeFrom s.trtART aid }, c)
      else (a, s, c)
    else (a, s, c)
  else (a, s, c)

/-- Ongoing incarceration step lifted to the population. -/
def incarcerate_ongoing (p : Params) (rng : Rng) (c : Nat) (time : Int)
    (aid : Nat) (pop : Nat → Agent) (s : Sets) :
    (Nat → Agent) × Sets × Nat :=
  let r := incarcerate_ongoing_agent p rng c time aid (pop aid) s
  (setAgent pop aid r.1, r.2.1, r.2.2)

/-- Agent-level effects of a new incarceration
(src/titan/ABM_core.py lines 810-846): duration bin, prison testing or
ART enrollment for HIV+ agents, then the incarceration flags and sets. -/
def incarcerate_new_agent (p : Params) (rng : Rng) (c : Nat) (time : Int)
    (aid : Nat) (a : Agent) (s : Sets) : Agent × Sets × Nat :=
  let hivB := a.hiv
  let tested := a.tested
  let pv := rng.flt c
  let c := c + 1
  let bin := select_jail_bin p a.so pv
  let stay := randint (p.jailBinMin a.so bin) (p.jailBinMax a.so bin)
    (rng.intDraw c)
  let c := c + 1
  let r2 :=
    if hivB then
      if ¬tested then
        let d2 := rng.flt c
        let c := c + 1
        if d2 < p.incPrisTestProb then ({ a with tested := true }, s, c)
        else (a, s, c)
      else
        let d2 := rng.flt c
        let c := c + 1
        if d2 < p.incARTenroll then
          let ad := draw_adherence p.incARTadh rng c
          ({ a with haart := true, haartAdh := ad.1, haartTime := time },
           { s with trtART := addTo s.trtART aid }, ad.2)
        else (a, s, c)
    else (a, s, c)
  let a2 := { r2.1 with incar := true, incarTime := stay }
  let sMid := r2.2.1
  let s2 := { sMid with
    incarcerated := addTo sMid.incarcerated aid,
    totalIncarcerated := sMid.totalIncarcerated + 1 }
  (a2, s2, r2.2.2)

/-- New incarceration step of HIVModel._incarcerate
(src/titan/ABM_core.py lines 804-868): incarceration draw, the
agent-level effects, and the partner high risk cascade. -/
def incarcerate_new (p : Params) (rng : Rng) (c : Nat) (time : Int)
    (aid : Nat) (pop : Nat → Agent) (s : Sets) :
    (Nat → Agent) × Sets × Nat :=
  let a := pop aid
  let d := rng.flt c
  let c := c + 1
  if d < p.incarParam a.race a.so *
      (1 + (if a.hiv then (4 : Rat) else 0)) * p.calIncarP then
    let r := incarcerate_new_agent p rng c time aid a s
    let pop2 := setAgent pop aid r.1
    r.1.partners.foldl (incar_partner_step p rng time) (pop2, r.2.1, r.2.2)
  else (pop, s, c)

/-- HIVModel._incarcerate (src/titan/ABM_core.py lines 734-868): either
steps an ongoing incarceration (with release when the pre-decrement
timer is 1) or draws a new incarceration, with prison testing and ART
enrollment for HIV+ agents and the partner high-risk cascade. -/
def incarcerate (p : Params) (rng : Rng) (c : Nat) (time : Int) (aid : Nat)
    (pop : Nat → Agent) (s : Sets) : (Nat → Agent) × Sets × Nat :=
  if (pop aid).incar then incarcerate_ongoing p rng c time aid pop s
  else incarcerate_new p rng c time aid pop s

/-! ## src/titan/ABM_core.py : high risk phase and per-agent update -/

/-- High risk upkeep for one agent of the high-risk set
(src/titan/ABM_core.py lines 352-374). -/
def high_risk_step (p : Params) (rng : Rng) (time : Int)
    (acc : (Nat → Agent) × Sets × Nat) (aid : Nat) :
    (Nat → Agent) × Sets × Nat :=
  let (pop, s, c) := acc
  let a := pop aid
  if a.highriskTime > 0 then
    let a := { a with highriskTime := a.highriskTime - 1 }
    let pop := setAgent pop aid a
    if a.so = "HM" ∧ p.flagPrEP ∧
        (p.prepTargetModel = "HR" ∨ p.prepTargetModel = "IncarHR") then
      a.partners.foldl (hr_partner_step p rng time) (pop, s, c)
    else (pop, s, c)
  else
    let s := { s with highriskAgents := removeFrom s.highriskAgents aid }
    let a := { a with highrisk := false }
    let a :=
      if p.modelName = "Incar" then
        if a.so = "HM" ∨ a.so = "HF" then
          { a with meanNumPartners := a.meanNumPartners - p.hrPartnerScale }
        else a
      else a
    (setAgent pop aid a, s, c)

/-- Ageing and incarceration part of the per-agent body
(src/titan/ABM_core.py lines 377-380). -/
def update_agent_pre (p : Params) (rng : Rng) (time : Int) (aid : Nat)
    (pop : Nat → Agent) (s : Sets) (c : Nat) :
    (Nat → Agent) × Sets × Nat :=
  let pop2 := setAgent pop aid
    { pop aid with timeAlive := (pop aid).timeAlive + 1 }
  if p.flagIncar then incarcerate p rng c time aid pop2 s
  else (pop2, s, c)

/-- MSMW seroconversion part of the per-agent body
(src/titan/ABM_core.py lines 382-383): the draw happens only for an
MSMW agent. -/
def update_agent_msmw (p : Params) (rng : Rng) (aid : Nat)
    (pop : Nat → Agent) (s : Sets) (c : Nat) :
    (Nat → Agent) × Sets × Nat :=
  if (pop aid).msmw then
    let d := rng.flt c
    let c := c + 1
    if d < p.hivMSMW then
      let r := become_HIV p rng c (pop aid) s
      (setAgent pop aid r.1, r.2.1, r.2.2)
    else (pop, s, c)
  else (pop, s, c)

/-- Clinical part of the per-agent body (src/titan/ABM_core.py lines
385-407): for an HIV+ agent, testing, AIDS progression and HAART
(suppressed to the incar-treatment decrement during burn); otherwise
the PrEP updates. -/
def update_agent_clinical (p : Params) (rng : Rng) (burn : Bool)
    (time : Int) (aid : Nat) (pop : Nat → Agent) (s : Sets) (c : Nat) :
    Except String ((Nat → Agent) × Sets × Nat) :=
  let a := pop aid
  if a.hiv then
    match burn with
    | true =>
      if a.incarTreatmentTime ≥ 1 then
        .ok (setAgent pop aid
          { a with incarTreatmentTime := a.incarTreatmentTime - 1 }, s, c)
      else .ok (pop, s, c)
    | false =>
      let ht := hiv_test p rng c a s
      match progress_to_AIDS p rng ht.2.2 ht.1 ht.2.1 with
      | .error e => .error e
      | .ok r3 =>
        if p.flagART then
          let r4 := update_HAART p rng r3.2.2 time r3.1 r3.2.1
          let a5 := { r4.1 with hivTime := r4.1.hivTime + 1 }
          .ok (setAgent pop aid a5, r4.2.1, r4.2.2)
        else .ok (setAgent pop aid r3.1, r3.2.1, r3.2.2)
  else
    if p.flagPrEP then
      if time ≥ p.prepStartT then
        if a.prepBool then
          let r6 := discont_PrEP p rng c false a s
          .ok (setAgent pop aid r6.1, r6.2.1, r6.2.2)
        else if p.prepTargetModel = "Clinical" then .ok (pop, s, c)
        else if p.prepTargetModel = "RandomTrial" then .ok (pop, s, c)
        else if p.prepEligible a time ∧ ¬a.prepBool then
          let r7 := initiate_PrEP p rng c time false a s
          .ok (setAgent pop aid r7.1, r7.2.1, r7.2.2)
        else .ok (pop, s, c)
      else .ok (pop, s, c)
    else .ok (pop, s, c)

/-- Per-agent body of HIVModel._update_AllAgents (src/titan/ABM_core.py
lines 376-407): age, incarceration step, MSMW seroconversion, then the
HIV branch (suppressed to the incar-treatment decrement during burn) or
the PrEP branch. -/
def update_agent_step (p : Params) (rng : Rng) (burn : Bool) (time : Int)
    (acc : (Nat → Agent) × Sets × Nat) (aid : Nat) :
    Except String ((Nat → Agent) × Sets × Nat) :=
  let r1 := update_agent_pre p rng time aid acc.1 acc.2.1 acc.2.2
  let r2 := update_agent_msmw p rng aid r1.1 r1.2.1 r1.2.2
  update_agent_clinical p rng burn time aid r2.1 r2.2.1 r2.2.2

/-! ## src/titan/ABM_core.py : relationship phase and update_AllAgents -/

/-- Relationship record: endpoint agent ids, remaining duration, and
accumulated sex acts. -/
structure Rel where
  id1 : Nat
  id2 : Nat
  duration : Int
  totalSexActs : Nat
  deriving Repr, DecidableEq

/-- Modelled from the spec: Relationship.progress (agent.py is not
under src): force terminates unconditionally, else the duration is
decremented and the relationship terminates when it reaches zero. -/
def rel_progress (force : Bool) (r : Rel) : Bool × Rel :=
  if force then (true, r)
  else
    let r := { r with duration := r.duration - 1 }
    if r.duration ≤ 0 then (true, r) else (false, r)

/-- Modelled from the spec: on termination both endpoints drop each
other from their partner lists (Relationship unbonding; agent.py is not
under src). -/
def unbond (pop : Nat → Agent) (r : Rel) : Nat → Agent :=
  let a1 := pop r.id1
  let pop := setAgent pop r.id1
    { a1 with partners := a1.partners.filter (fun x => x ≠ r.id2) }
  let a2 := pop r.id2
  setAgent pop r.id2
    { a2 with partners := a2.partners.filter (fun x => x ≠ r.id1) }

/-- Relationship loop body of HIVModel._update_AllAgents
(src/titan/ABM_core.py lines 332-349): interactions are skipped during
burn; progression is skipped for a static network; terminated
relationships are dropped. -/
def rel_phase_step (p : Params) (rng : Rng) (burn : Bool) (time : Int)
    (acc : (Nat → Agent) × List Rel × Sets × Nat) (r : Rel) :
    Except String ((Nat → Agent) × List Rel × Sets × Nat) :=
  let (pop, keep, s, c) := acc
  let interacted :=
    match burn with
    | true => Except.ok (pop r.id1, pop r.id2, r.totalSexActs, s, c)
    | false =>
      agents_interact p rng c time (pop r.id1) (pop r.id2) r.totalSexActs s
  match interacted with
  | .error e => .error e
  | .ok q =>
    let pop2 := setAgent (setAgent pop r.id1 q.1) r.id2 q.2.1
    let r2 := { r with totalSexActs := q.2.2.1 }
    if p.flagStaticN then .ok (pop2, keep ++ [r2], q.2.2.2.1, q.2.2.2.2)
    else
      let pr := rel_progress false r2
      if pr.1 then .ok (unbond pop2 pr.2, keep, q.2.2.2.1, q.2.2.2.2)
      else .ok (pop2, keep ++ [pr.2], q.2.2.2.1, q.2.2.2.2)

/-- Population-level state of the model step. -/
structure PopState where
  ids : List Nat
  pop : Nat → Agent
  rels : List Rel
  sets : Sets
  cursor : Nat

/-- HIVModel._update_AllAgents (src/titan/ABM_core.py lines 307-407):
reset of the per-step transmission lists, the relationship loop, the
high risk phase, then the per-agent phase.  Partner turnover (line 326)
and the trailing Clinical and RandomTrial PrEP enrollment pass (lines
409-462), which touch only PrEP and treatment fields, are outside this
embedding. -/
def update_AllAgents_core (p : Params) (rng : Rng) (burn : Bool)
    (time : Int) (st : PopState) : Except String PopState :=
  let s0 := { st.sets with acuteAgents := [], transmitFrom := [],
                           transmitTo := [] }
  match st.rels.foldlM (rel_phase_step p rng burn time)
      (st.pop, ([] : List Rel), s0, st.cursor) with
  | .error e => .error e
  | .ok q =>
    let r1 :=
      if p.flagHR then
        q.2.2.1.highriskAgents.foldl (high_risk_step p rng time)
          (q.1, q.2.2.1, q.2.2.2)
      else (q.1, q.2.2.1, q.2.2.2)
    match st.ids.foldlM (update_agent_step p rng burn time) r1 with
    | .error e => .error e
    | .ok w =>
      .ok { ids := st.ids, pop := w.1, rels := q.2.1, sets := w.2.1,
            cursor := w.2.2 }

/-! ## src/titan/population.py : partner assignment loop

Population.update_partner_assignments (src/titan/population.py lines
446-470) for one bond type: a FIFO queue of agents under target, a
per-agent attempt map, and a loop that pops an agent, attempts
update_agent_partners, and requeues while the agent is under target and
under break_point attempts.  The outcome of one update_agent_partners
call is modelled by an oracle from the iteration index and the agent to
the matched partner (or none): a successful match bonds both agents
(each partner count grows by one, src/titan/agent.py Relationship
bonding), a failed match increments the attempt count; the loop
properties below hold for every oracle, hence for the concrete
select_partner. -/

/-- Loop state for one bond type: the FIFO queue, the per-agent partner
count for the bond, the per-agent failed-attempt count, and an
iteration counter feeding the oracle. -/
structure PAState where
  queue : List Nat
  partners : Nat → Nat
  attempts : Nat → Nat
  iter : Nat

/-- One iteration of the while loop of update_partner_assignments
(src/titan/population.py lines 456-470). -/
def paStep (target : Nat → Nat) (bp : Nat) (oracle : Nat → Nat → Option Nat)
    (s : PAState) : PAState :=
  match s.queue with
  | [] => s
  | a :: rest =>
    if s.partners a < target a then
      match oracle s.iter a with
      | some b =>
        let partners2 := fun x =>
          if x = a ∨ x = b then s.partners x + 1 else s.partners x
        let q2 := if partners2 a < target a ∧ s.attempts a < bp then
            rest ++ [a]
          else rest
        { queue := q2, partners := partners2, attempts := s.attempts,
          iter := s.iter + 1 }
      | none =>
        let att2 := fun x => if x = a then s.attempts x + 1 else s.attempts x
        let q2 := if s.partners a < target a ∧ att2 a < bp then rest ++ [a]
          else rest
        { queue := q2, partners := s.partners, attempts := att2,
          iter := s.iter + 1 }
    else
      { queue := rest, partners := s.partners, attempts := s.attempts,
        iter := s.iter + 1 }

/-- Termination measure of the assignment loop: queue length plus, for
each queued agent, its remaining partner slack and remaining attempt
budget. -/
def paMeasure (target : Nat → Nat) (bp : Nat) (s : PAState) : Nat :=
  s.queue.length +
    (s.queue.map (fun a => (target a - s.partners a) + (bp - s.attempts a))).sum

/-! ## Concrete values for evaluations -/

/-- Default-valued agent record for concrete evaluations. -/
def baseAgent : Agent where
  id := 0
  race := "WHITE"
  so := "HM"
  du := "NDU"
  hiv := false
  hivTime := 0
  aids := false
  tested := false
  haart := false
  haartAdh := 0
  haartTime := 0
  incar := false
  incarTime := 0
  everIncar := false
  incarTreatmentTime := 0
  prepBool := false
  prepTime := 0
  prepAdh := 0
  prepLoad := 0
  prepLastDose := 0
  prepResistance := false
  prepReason := []
  treatment := false
  msmw := false
  sne := false
  highrisk := false
  everHighrisk := false
  highriskTime := 0
  meanNumPartners := 0
  timeAlive := 0
  partners := []

/-- Empty model sets for concrete evaluations. -/
def emptySets : Sets where
  numAll := 1
  hivAgents := []
  newInfections := []
  trtPrEP := []
  newPrEP := []
  trtART := []
  trtTstd := []
  newDiagnosis := []
  hivAids := []
  incarcerated := []
  newIncarRelease := []
  highriskAgents := []
  newHRrolls := []
  totalIncarcerated := 0
  acuteAgents := []
  transmitFrom := []
  transmitTo := []

/-- Concrete parameter values for evaluations. -/
def defaultParams : Params where
  needleShare := fun _ _ => 1/2
  numSexActsParam := fun _ _ => 3
  calNeedleActScaling := 1
  safeNeedleExchangePrev := 1
  unsafeSexParam := fun _ _ => 1/2
  condomUseType := "Race"
  calSexualActScaling := 1
  prepType := "Oral"
  prepAdhEffic := 1/2
  prepNonAdhEffic := 1/4
  prepResist := 1/2
  hivMSMW := 1/10
  flagIncar := false
  flagPrEP := false
  flagART := false
  flagHR := false
  flagStaticN := false
  prepStartT := 0
  prepTargetModel := ""
  prepTargetProb := 0
  prepClinicCat := ""
  prepFalloutT := 3
  prepAdherenceProb := 1/2
  setting := ""
  prepPeakLoad := 1
  demographicPrepAdh := fun _ _ => 1/2
  prepDisc := fun _ _ => 1/2
  hivTestParam := fun _ _ => 1/2
  calTestFreq := 1
  haartPrev := fun _ _ => 1/2
  haartAdhParam := fun _ _ => 1/2
  haartDisc := fun _ _ => 1/2
  calARTcov := 1
  incTreatRIC := false
  incTreatHRsexBeh := false
  incTreatIDUBeh := false
  incTreatmentStartdate := 0
  incTreatmentDur := 0
  modelName := "Custom"
  hrPartnerScale := 1
  hrMdur := 6
  hrFdur := 6
  hrProportion := 1/2
  incarParam := fun _ _ => 0
  calIncarP := 1
  incPrisTestProb := 1/2
  incARTenroll := 1/2
  incARTadh := 1/2
  incARTdisc := 1/2
  calProgAIDS := 1
  jailBinProb := fun _ _ => 1
  jailBinMin := fun _ _ => 1
  jailBinMax := fun _ _ => 2
  jailBinCount := 5
  adherenceProbParam := fun _ => 1/2
  getTransmissionProb := fun _ _ => 1/2
  getAcuteStatus := fun _ _ => false
  getNumSexActs := fun _ d => d
  prepEligible := fun _ _ => false
  prepLoadDecay := 1/2
  injReduction := fun _ => 1/2
  unsafeSexFn := fun _ => 1/2

/-- Deterministic draw streams used in evaluations: uniform draws 0,
integer entropy 0, Poisson draws 1. -/
def zeroRng : Rng where
  flt := fun _ => 0
  intDraw := fun _ => 0
  pois := fun _ _ => 1

/-- Mean partner count scaling in Population.create_agent
(src/titan/population.py lines 236-243): a distribution draw scaled by
calibration.sex.partner over the bond mean relationship duration via
safe_divide, then the ceiling. -/
def create_agent_mean_num_partners (distDraw : Rat)
    (calSexPartner meanRelDuration : Int) : Int :=
  Int.ceil (distDraw * safe_divide calSexPartner meanRelDuration)

/-- Concrete incarcerated agent for the death step evaluation. -/
def incarAgentC4 : Agent :=
  { baseAgent with incar := true, race := "BLACK", so := "HM" }

/-- Population state with no agents and no relationships, on which the
burn update is computable by reduction. -/
def emptyStateC6 : PopState :=
  { ids := [], pop := fun _ => baseAgent, rels := [], sets := emptySets,
    cursor := 0 }

/-- MSMW agent used for the burn counterexample. -/
def msmwAgentC6 : Agent := { baseAgent with msmw := true }

/-- One-agent population state for the burn counterexample. -/
def burnStateC6 : PopState :=
  { ids := [0], pop := fun _ => msmwAgentC6, rels := [],
    sets := emptySets, cursor := 0 }

/-- Target map for the partner loop evaluations: every agent seeks one
partner. -/
def paTargetC7 : Nat → Nat := fun _ => 1

/-- Match oracle for the partner loop counterexample: the first
iteration matches agent 0 with agent 1; no other match occurs. -/
def paOracleC7 : Nat → Nat → Option Nat := fun i a =>
  if i = 0 ∧ a = 0 then some 1 else none

/-- Initial loop state for the partner loop counterexample: agents 0
and 1 queued, no partners, no attempts. -/
def paState0C7 : PAState :=
  { queue := [0, 1], partners := fun _ => 0, attempts := fun _ => 0,
    iter := 0 }

/-!
# Claims

Each claim of the specification is settled by one theorem below.
-/

/-! ## C10 : safe_divide and the mean partner scaling -/

/-- C10: safe_divide is total, returns 0.0 on a zero denominator and
the exact quotient otherwise; hence the mean partner scaling of
create_agent is defined for a bond whose mean relationship duration is
zero and gives a mean partner count of 0 in that case. -/
theorem C10_safe_divide_total (n d : Int) (dd : Rat) (cal : Int) :
    safe_divide n 0 = 0 ∧
    (d ≠ 0 → safe_divide n d = (n : Rat) / (d : Rat)) ∧
    create_agent_mean_num_partners dd cal 0 = 0 := by
  refine ⟨by simp [safe_divide], fun h => by simp [safe_divide, h], ?_⟩
  simp [create_agent_mean_num_partners, safe_divide]

/-- C10 witness: the theorem instantiated at numerator 3, denominator
2, draw 5/2 and calibration 7. -/
theorem C10_safe_divide_total_witness :
    safe_divide 3 0 = 0 ∧
    ((2 : Int) ≠ 0 → safe_divide 3 2 = ((3 : Int) : Rat) / ((2 : Int) : Rat)) ∧
    create_agent_mean_num_partners (5/2) 7 0 = 0 :=
  C10_safe_divide_total 3 2 (5/2) 7

/-! ## C9 : seed validation -/

/-- C9: get_check_rand_int raises exactly on a non-integer or negative
seed, returns every strictly positive seed unchanged, and for seed 0
returns a freshly drawn integer in [1, 1000000]. -/
theorem C9_get_check_rand_int (s : Int) (r : Nat) :
    (∀ r2, (get_check_rand_int none r2).isOk = false) ∧
    (s < 0 → (get_check_rand_int (some s) r).isOk = false) ∧
    (0 < s → get_check_rand_int (some s) r = .ok s) ∧
    (get_check_rand_int (some 0) r = .ok (randint 1 1000000 r) ∧
      1 ≤ randint 1 1000000 r ∧ randint 1 1000000 r ≤ 1000000) ∧
    (¬ s < 0 → (get_check_rand_int (some s) r).isOk = true) := by
  have hmod : (r % 1000000 : Nat) < 1000000 := Nat.mod_lt r (by norm_num)
  have hrand : randint 1 1000000 r = 1 + ((r % 1000000 : Nat) : Int) := by
    simp [randint]
  refine ⟨fun r2 => rfl, ?_, ?_, ⟨?_, ?_, ?_⟩, ?_⟩
  · intro h
    simp [get_check_rand_int, h, Except.isOk, Except.toBool]
  · intro h
    have h1 : ¬ s < 0 := by omega
    have h2 : ¬ s = 0 := by omega
    simp [get_check_rand_int, h1, h2]
  · simp [get_check_rand_int]
  · rw [hrand]; omega
  · rw [hrand]; omega
  · intro h1
    by_cases h2 : s = 0
    · subst h2
      simp [get_check_rand_int, Except.isOk, Except.toBool]
    · simp [get_check_rand_int, h1, h2, Except.isOk, Except.toBool]

/-- C9 witness: the theorem at seed 5 with entropy 3, together with the
instantiation of its guarded branches. -/
theorem C9_get_check_rand_int_witness :
    (∀ r2, (get_check_rand_int none r2).isOk = false) ∧
    ((5 : Int) < 0 → (get_check_rand_int (some 5) 3).isOk = false) ∧
    ((0 : Int) < 5 → get_check_rand_int (some 5) 3 = .ok 5) ∧
    (get_check_rand_int (some 0) 3 = .ok (randint 1 1000000 3) ∧
      1 ≤ randint 1 1000000 3 ∧ randint 1 1000000 3 ≤ 1000000) ∧
    (¬ (5 : Int) < 0 → (get_check_rand_int (some 5) 3).isOk = true) :=
  C9_get_check_rand_int 5 3

/-! ## C8 : mutual sex compatibility -/

/-- C8: sex_possible is true exactly when the sleeps_with adjacency
holds in both directions, is symmetric on valid sex types, and errors
on a sex type outside the enumeration. -/
theorem C8_sex_possible_mutual (types : List String)
    (sw : String → List String) (a b : String) :
    (a ∈ types → b ∈ types →
      (sex_possible types sw a b = .ok true ↔ (a ∈ sw b ∧ b ∈ sw a))) ∧
    (a ∈ types → b ∈ types →
      sex_possible types sw a b = sex_possible types sw b a) ∧
    ((a ∉ types ∨ b ∉ types) → (sex_possible types sw a b).isOk = false) := by
  refine ⟨?_, ?_, ?_⟩
  · intro ha hb
    simp [sex_possible, ha, hb, And.comm]
  · intro ha hb
    simp [sex_possible, ha, hb, Bool.and_comm]
  · intro h
    rcases h with h | h
    · simp [sex_possible, h, Except.isOk, Except.toBool]
    · by_cases ha : a ∈ types
      · simp [sex_possible, ha, h, Except.isOk, Except.toBool]
      · simp [sex_possible, ha, Except.isOk, Except.toBool]

/-- C8 witness: the theorem at the concrete two-type enumeration where
HM sleeps with HF and HF with HM. -/
theorem C8_sex_possible_mutual_witness :
    (("HM" : String) ∈ ["HM", "HF"] → ("HF" : String) ∈ ["HM", "HF"] →
      (sex_possible ["HM", "HF"]
          (fun x => if x = "HM" then ["HF"] else ["HM"]) "HM" "HF" = .ok true ↔
        (("HM" : String) ∈ (if ("HF" : String) = "HM" then ["HF"] else ["HM"]) ∧
         ("HF" : String) ∈ (if ("HM" : String) = "HM" then ["HF"] else ["HM"])))) ∧
    (("HM" : String) ∈ ["HM", "HF"] → ("HF" : String) ∈ ["HM", "HF"] →
      sex_possible ["HM", "HF"] (fun x => if x = "HM" then ["HF"] else ["HM"])
          "HM" "HF" =
        sex_possible ["HM", "HF"] (fun x => if x = "HM" then ["HF"] else ["HM"])
          "HF" "HM") ∧
    ((("HM" : String) ∉ ["HM", "HF"] ∨ ("HF" : String) ∉ ["HM", "HF"]) →
      (sex_possible ["HM", "HF"] (fun x => if x = "HM" then ["HF"] else ["HM"])
          "HM" "HF").isOk = false) :=
  C8_sex_possible_mutual ["HM", "HF"]
    (fun x => if x = "HM" then ["HF"] else ["HM"]) "HM" "HF"

/-! ## C3 : the partnerable set invariant -/

/-- C3 counterexample: at the boundary, partner count equal to target
times buffer, update_partnerability keeps a member in the partnerable
set, though the claimed iff requires strict inequality and hence
non-membership. -/
theorem C3_partnerable_counterexample :
    update_partnerability true 2 2 1 = true ∧
    ¬ (((2 : Nat) : Rat) < ((2 : Nat) : Rat) * 1) := by
  constructor
  · have h2 : ¬ (((2 : Nat) : Rat) > ((2 : Nat) : Rat) * 1) := by norm_num
    simp [update_partnerability, h2]
  · norm_num

/-- C3 amended: update_partnerability adds an agent below target times
buffer, removes an agent strictly above it, and leaves membership
unchanged at the boundary (so for a non-member the claimed iff does
hold); the relationship-add path of update_agent_partners keeps the new
partner in the set exactly while its count does not strictly exceed
target times buffer, and does not update the seeking agent. -/
theorem C3_partnerable_amended (inSet : Bool) (n t : Nat) (buffer : Rat) :
    (((n : Rat) < (t : Rat) * buffer →
      update_partnerability inSet n t buffer = true)) ∧
    (((n : Rat) > (t : Rat) * buffer →
      update_partnerability inSet n t buffer = false)) ∧
    (((n : Rat) = (t : Rat) * buffer →
      update_partnerability inSet n t buffer = inSet)) ∧
    (inSet = false →
      (update_partnerability inSet n t buffer = true ↔
        (n : Rat) < (t : Rat) * buffer)) ∧
    (update_agent_partners_partner_stays n t buffer = true ↔
      (n : Rat) ≤ (t : Rat) * buffer) := by
  refine ⟨?_, ?_, ?_, ?_, ?_⟩
  · intro h
    have h2 : ¬ ((n : Rat) > (t : Rat) * buffer) := by linarith
    cases inSet <;> simp [update_partnerability, h, h2]
  · intro h
    have h2 : ¬ ((n : Rat) < (t : Rat) * buffer) := by linarith
    cases inSet <;> simp [update_partnerability, h, h2]
  · intro h
    have h2 : ¬ ((n : Rat) > (t : Rat) * buffer) := by simp [h]
    have h3 : ¬ ((n : Rat) < (t : Rat) * buffer) := by simp [h]
    cases inSet <;> simp [update_partnerability, h2, h3]
  · intro h
    subst h
    by_cases h2 : (n : Rat) < (t : Rat) * buffer <;>
      simp [update_partnerability, h2]
  · by_cases h2 : (n : Rat) > (t : Rat) * buffer
    · simp [update_agent_partners_partner_stays, h2, not_le.mpr h2]
    · simp [update_agent_partners_partner_stays, h2, not_lt.mp h2]

/-- C3 witness: the amended theorem at a non-member below target times
buffer. -/
theorem C3_partnerable_amended_witness :
    ((((1 : Nat) : Rat) < ((3 : Nat) : Rat) * 1 →
      update_partnerability false 1 3 1 = true)) ∧
    ((((1 : Nat) : Rat) > ((3 : Nat) : Rat) * 1 →
      update_partnerability false 1 3 1 = false)) ∧
    ((((1 : Nat) : Rat) = ((3 : Nat) : Rat) * 1 →
      update_partnerability false 1 3 1 = false)) ∧
    (false = false →
      (update_partnerability false 1 3 1 = true ↔
        ((1 : Nat) : Rat) < ((3 : Nat) : Rat) * 1)) ∧
    (update_agent_partners_partner_stays 1 3 1 = true ↔
      ((1 : Nat) : Rat) ≤ ((3 : Nat) : Rat) * 1) :=
  C3_partnerable_amended false 1 3 1

/-! ## C4 : death and replacement of an incarcerated agent -/

/-- C4: evaluating _die_and_replace at an incarcerated agent whose
death draw (1/4) is below its death rate (1/2): the agent dies, because
the incarceration branch of the source is pass and does not skip the
death trial, contradicting both the skip claim and the comment above
the branch; the replacement would mirror race and sex type. -/
theorem C4_incarcerated_dies :
    incarAgentC4.incar = true ∧
    die_and_replace_dies incarAgentC4 (1/2) (1/4) = true ∧
    die_and_replace_replacement incarAgentC4 = ("BLACK", "HM") := by
  refine ⟨rfl, ?_, rfl⟩
  simp only [die_and_replace_dies]
  norm_num

/-! ## Shared facts on become_HIV and discont_PrEP -/

/-- PrEP discontinuation changes only PrEP fields of the agent and the
PrEP treatment set. -/
theorem discont_PrEP_preserves (p : Params) (rng : Rng) (c : Nat)
    (force : Bool) (a : Agent) (s : Sets) :
    (discont_PrEP p rng c force a s).1.hiv = a.hiv ∧
    (discont_PrEP p rng c force a s).1.hivTime = a.hivTime ∧
    (discont_PrEP p rng c force a s).1.tested = a.tested ∧
    (discont_PrEP p rng c force a s).1.haart = a.haart ∧
    (discont_PrEP p rng c force a s).1.aids = a.aids ∧
    (discont_PrEP p rng c force a s).1.msmw = a.msmw ∧
    (discont_PrEP p rng c force a s).1.prepResistance = a.prepResistance ∧
    (discont_PrEP p rng c force a s).1.id = a.id ∧
    (discont_PrEP p rng c force a s).2.1.newInfections = s.newInfections ∧
    (discont_PrEP p rng c force a s).2.1.hivAgents = s.hivAgents := by
  unfold discont_PrEP update_PrEP_load
  split_ifs <;> simp_all [apply_ite]

/-- Forced PrEP discontinuation leaves the agent unenrolled. -/
theorem discont_PrEP_force_off (p : Params) (rng : Rng) (c : Nat)
    (a : Agent) (s : Sets) :
    (discont_PrEP p rng c true a s).1.prepBool = false := by
  unfold discont_PrEP update_PrEP_load
  split_ifs <;> simp_all [apply_ite]

/-- Fields of the conversion part on an HIV-negative agent. -/
theorem become_HIV_core_neg (p : Params) (rng : Rng) (c : Nat) (a : Agent)
    (s : Sets) (h : a.hiv = false) :
    (become_HIV_core p rng c a s).1.hiv = true ∧
    (become_HIV_core p rng c a s).1.hivTime = 1 ∧
    (become_HIV_core p rng c a s).2.1.newInfections =
      addTo s.newInfections a.id ∧
    (become_HIV_core p rng c a s).2.1.hivAgents = addTo s.hivAgents a.id ∧
    (become_HIV_core p rng c a s).1.prepBool = a.prepBool ∧
    (become_HIV_core p rng c a s).1.id = a.id ∧
    (a.prepTime > 0 → a.prepResistance = false →
      ((become_HIV_core p rng c a s).1.prepResistance = true ↔
        rng.flt c < p.prepResist)) := by
  unfold become_HIV_core
  by_cases h1 : a.prepTime > 0
  · by_cases h2 : rng.flt c < p.prepResist
    · simp [h, h1, h2]
    · simp [h, h1, h2]
  · simp [h, h1]

/-- The conversion part is the identity on an HIV+ agent. -/
theorem become_HIV_core_pos (p : Params) (rng : Rng) (c : Nat) (a : Agent)
    (s : Sets) (h : a.hiv = true) :
    become_HIV_core p rng c a s = (a, s, c) := by
  unfold become_HIV_core
  simp [h]

/-- Fields of become_HIV reduce to fields of the conversion part, since
the forced discontinuation does not touch them. -/
theorem become_HIV_fields (p : Params) (rng : Rng) (c : Nat) (a : Agent)
    (s : Sets) :
    (become_HIV p rng c a s).1.hiv = (become_HIV_core p rng c a s).1.hiv ∧
    (become_HIV p rng c a s).1.hivTime =
      (become_HIV_core p rng c a s).1.hivTime ∧
    (become_HIV p rng c a s).1.prepResistance =
      (become_HIV_core p rng c a s).1.prepResistance ∧
    (become_HIV p rng c a s).2.1.newInfections =
      (become_HIV_core p rng c a s).2.1.newInfections ∧
    (become_HIV p rng c a s).2.1.hivAgents =
      (become_HIV_core p rng c a s).2.1.hivAgents := by
  simp only [become_HIV]
  split
  · have hd := discont_PrEP_preserves p rng
      (become_HIV_core p rng c a s).2.2 true
      (become_HIV_core p rng c a s).1 (become_HIV_core p rng c a s).2.1
    exact ⟨hd.1, hd.2.1, hd.2.2.2.2.2.2.1, hd.2.2.2.2.2.2.2.2.1,
      hd.2.2.2.2.2.2.2.2.2⟩
  · exact ⟨rfl, rfl, rfl, rfl, rfl⟩

/-- The agent is not enrolled in PrEP after become_HIV. -/
theorem become_HIV_prep_off (p : Params) (rng : Rng) (c : Nat) (a : Agent)
    (s : Sets) : (become_HIV p rng c a s).1.prepBool = false := by
  simp only [become_HIV]
  split
  · exact discont_PrEP_force_off p rng _ _ _
  · rename_i h
    revert h
    cases (become_HIV_core p rng c a s).1.prepBool <;> simp

/-- After become_HIV the agent carries HIV. -/
theorem become_HIV_hiv_true (p : Params) (rng : Rng) (c : Nat) (a : Agent)
    (s : Sets) : (become_HIV p rng c a s).1.hiv = true := by
  have hf := (become_HIV_fields p rng c a s).1
  cases hh : a.hiv with
  | false => exact hf.trans (become_HIV_core_neg p rng c a s hh).1
  | true => rw [hf, become_HIV_core_pos p rng c a s hh]; exact hh

/-! ## C5 : becoming HIV+ -/

/-- C5: become_HIV on an HIV-negative agent sets hiv and hiv_time 1 and
adds the agent to hiv_agents and new_infections; when the PrEP fallout
timer is positive (the agent was previously on PrEP), PrEP resistance
is set exactly when the resistance draw falls below prep_resist; the
agent is not enrolled in PrEP after the call; and on an already HIV+
agent the hiv fields and new_infections are unchanged. -/
theorem C5_become_HIV (p : Params) (rng : Rng) (c : Nat) (a : Agent)
    (s : Sets) :
    (a.hiv = false →
      (become_HIV p rng c a s).1.hiv = true ∧
      (become_HIV p rng c a s).1.hivTime = 1 ∧
      a.id ∈ (become_HIV p rng c a s).2.1.newInfections ∧
      a.id ∈ (become_HIV p rng c a s).2.1.hivAgents) ∧
    (a.hiv = false → a.prepTime > 0 → a.prepResistance = false →
      ((become_HIV p rng c a s).1.prepResistance = true ↔
        rng.flt c < p.prepResist)) ∧
    (become_HIV p rng c a s).1.prepBool = false ∧
    (a.hiv = true →
      (become_HIV p rng c a s).1.hiv = a.hiv ∧
      (become_HIV p rng c a s).1.hivTime = a.hivTime ∧
      (become_HIV p rng c a s).2.1.newInfections = s.newInfections) := by
  have hmem : a.id ∈ addTo s.newInfections a.id := by
    unfold addTo; split <;> simp_all
  have hmem2 : a.id ∈ addTo s.hivAgents a.id := by
    unfold addTo; split <;> simp_all
  obtain ⟨f1, f2, f3, f4, f5⟩ := become_HIV_fields p rng c a s
  refine ⟨fun hh => ?_, fun hh hpt hpr => ?_,
    become_HIV_prep_off p rng c a s, fun hh => ?_⟩
  · obtain ⟨h1, h2, h3, h4, _, _, _⟩ := become_HIV_core_neg p rng c a s hh
    exact ⟨f1.trans h1, f2.trans h2, by rw [f4, h3]; exact hmem,
      by rw [f5, h4]; exact hmem2⟩
  · obtain ⟨_, _, _, _, _, _, h7⟩ := become_HIV_core_neg p rng c a s hh
    rw [f3]
    exact h7 hpt hpr
  · have hp := become_HIV_core_pos p rng c a s hh
    rw [hp] at f1 f2 f4
    exact ⟨f1, f2, f4⟩

/-- C5 witness: the theorem at an HIV-negative agent whose fallout
timer is 2, under the zero draw stream. -/
theorem C5_become_HIV_witness :
    let a := { baseAgent with prepTime := 2 }
    (a.hiv = false →
      (become_HIV defaultParams zeroRng 0 a emptySets).1.hiv = true ∧
      (become_HIV defaultParams zeroRng 0 a emptySets).1.hivTime = 1 ∧
      a.id ∈ (become_HIV defaultParams zeroRng 0 a emptySets).2.1.newInfections ∧
      a.id ∈ (become_HIV defaultParams zeroRng 0 a emptySets).2.1.hivAgents) ∧
    (a.hiv = false → a.prepTime > 0 → a.prepResistance = false →
      ((become_HIV defaultParams zeroRng 0 a emptySets).1.prepResistance = true ↔
        zeroRng.flt 0 < defaultParams.prepResist)) ∧
    (become_HIV defaultParams zeroRng 0 a emptySets).1.prepBool = false ∧
    (a.hiv = true →
      (become_HIV defaultParams zeroRng 0 a emptySets).1.hiv = a.hiv ∧
      (become_HIV defaultParams zeroRng 0 a emptySets).1.hivTime = a.hivTime ∧
      (become_HIV defaultParams zeroRng 0 a emptySets).2.1.newInfections =
        emptySets.newInfections) :=
  C5_become_HIV defaultParams zeroRng 0 { baseAgent with prepTime := 2 } emptySets

/-! ## C2 : interaction guard -/

/-- C2: agents_interact returns the state unchanged whenever the two
endpoints agree on HIV status (zero or two HIV+ endpoints) or either is
incarcerated; a transmission interaction therefore happens only with
exactly one HIV+ endpoint and no incarcerated endpoint, and the guard
never silently infects. -/
theorem C2_agents_interact_guard (p : Params) (rng : Rng) (c : Nat)
    (time : Int) (a1 a2 : Agent) (tot : Nat) (s : Sets)
    (h : a1.hiv = a2.hiv ∨ a1.incar = true ∨ a2.incar = true) :
    agents_interact p rng c time a1 a2 tot s = .ok (a1, a2, tot, s, c) := by
  unfold agents_interact
  by_cases h1 : a1.incar = true ∨ a2.incar = true
  · simp [h1]
  · have h2 : a1.hiv = a2.hiv := by tauto
    simp [h1, h2]

/-- C2 witness: two HIV+ PWID endpoints exchange nothing. -/
theorem C2_agents_interact_guard_witness :
    agents_interact defaultParams zeroRng 0 1
      { baseAgent with hiv := true, du := "IDU" }
      { baseAgent with hiv := true, du := "IDU" } 0 emptySets =
      .ok ({ baseAgent with hiv := true, du := "IDU" },
           { baseAgent with hiv := true, du := "IDU" }, 0, emptySets, 0) :=
  C2_agents_interact_guard defaultParams zeroRng 0 1
    { baseAgent with hiv := true, du := "IDU" }
    { baseAgent with hiv := true, du := "IDU" } 0 emptySets (Or.inl rfl)

/-! ## C1 : needle transmission -/

/-- The retention loop keeps exactly the acts whose draw is at most
p_unsafe. -/
theorem needle_retained_eq (flt : Nat → Rat) (c : Nat) (pU : Rat) (k : Nat) :
    needle_retained flt c pU k =
      (List.range k).countP (fun j => decide (flt (c + j) ≤ pU)) := by
  have h1 := List.length_eq_countP_add_countP
    (fun j => decide (flt (c + j) > pU)) (List.range k)
  have h2 : (List.range k).countP
      (fun j => decide (¬ (decide (flt (c + j) > pU)) = true)) =
      (List.range k).countP (fun j => decide (flt (c + j) ≤ pU)) := by
    apply List.countP_congr
    intro j _
    simp [not_lt]
  rw [h2] at h1
  have h3 : (List.range k).length = k := List.length_range k
  unfold needle_retained
  omega

/-- C1: the needle transmission quantities: p_unsafe is 0.02 under
syringe exchange enrollment, else the needle share parameter times the
safe needle exchange prevalence with share acts clamped to at least 1;
each act is retained exactly when its own uniform draw is at most
p_unsafe; the total transmission probability for retained count n at
per-act probability pr is 1 - (1 - pr)^n (pr itself at n = 1), both in
the inline formula of _needle_transmission and in
utils.total_probability; and the susceptible partner converts exactly
when the single Bernoulli draw falls below that total probability. -/
theorem C1_needle_transmission (p : Params) (race so : String)
    (drawn : Nat) (flt : Nat → Rat) (c0 : Nat) (pU pr : Rat) (n : Nat)
    (m : Int) (rng : Rng) (c : Nat) (time : Int) (agent partner : Agent)
    (s : Sets) :
    needle_unsafe_prob p true race so = 2/100 ∧
    (needle_unsafe_prob p false race so =
      p.needleShare race so * p.safeNeedleExchangePrev ∧
      1 ≤ needle_share_acts false drawn) ∧
    needle_retained flt c0 pU n =
      (List.range n).countP (fun j => decide (flt (c0 + j) ≤ pU)) ∧
    (1 ≤ n → p_total_transmission n pr = 1 - (1 - pr) ^ n) ∧
    p_total_transmission 1 pr = pr ∧
    (1 ≤ m → total_probability pr m = 1 - (1 - pr) ^ m.toNat) ∧
    (partner.hiv = false →
      ((needle_transmission p rng c time agent partner s).1.hiv = true ↔
        (1 ≤ needle_retained rng.flt (c + 1)
            (needle_unsafe_prob p agent.sne agent.race agent.so)
            (needle_share_acts agent.sne
              (rng.pois c (p.numSexActsParam agent.race agent.so *
                p.calNeedleActScaling))) ∧
          rng.flt (c + 1 + needle_share_acts agent.sne
              (rng.pois c (p.numSexActsParam agent.race agent.so *
                p.calNeedleActScaling))) <
            p_total_transmission
              (needle_retained rng.flt (c + 1)
                (needle_unsafe_prob p agent.sne agent.race agent.so)
                (needle_share_acts agent.sne
                  (rng.pois c (p.numSexActsParam agent.race agent.so *
                    p.calNeedleActScaling))))
              (p.getTransmissionProb agent "NEEDLE")))) := by
  have htot : ∀ k : Nat, 1 ≤ k →
      p_total_transmission k pr = 1 - (1 - pr) ^ k := by
    intro k hk
    unfold p_total_transmission binom_0
    by_cases h1 : k = 1
    · subst h1
      simp
    · simp [h1]
  refine ⟨rfl, ⟨rfl, ?_⟩, needle_retained_eq flt c0 pU n, htot n, ?_, ?_, ?_⟩
  · simp [needle_share_acts]
  · have h5 := htot 1 le_rfl
    rw [h5]
    ring
  · intro hm
    unfold total_probability binom_0
    by_cases h1 : m = 1
    · subst h1
      simp
    · have h3 : m ≥ 1 := hm
      simp [h1, h3]
  · intro hp
    simp only [needle_transmission]
    split
    · rename_i hret
      split
      · rename_i hdraw
        simp only [become_HIV_hiv_true, true_iff]
        exact ⟨hret, hdraw⟩
      · rename_i hdraw
        simp only [hp]
        constructor
        · intro h; cases h
        · rintro ⟨h1, h2⟩; exact absurd h2 hdraw
    · rename_i hret
      simp only [hp]
      constructor
      · intro h; cases h
      · rintro ⟨h1, h2⟩; exact absurd h1 hret

/-- C1 witness: the theorem at the default parameters with a
non-enrolled source, Poisson draw 1 and zero uniform draws. -/
theorem C1_needle_transmission_witness :
    needle_unsafe_prob defaultParams true "WHITE" "HM" = 2/100 ∧
    (needle_unsafe_prob defaultParams false "WHITE" "HM" =
      defaultParams.needleShare "WHITE" "HM" *
        defaultParams.safeNeedleExchangePrev ∧
      1 ≤ needle_share_acts false 0) ∧
    needle_retained (fun _ => 0) 0 (mkRat 1 2) 2 =
      (List.range 2).countP (fun j => decide ((fun _ => (0 : Rat)) (0 + j) ≤ mkRat 1 2)) ∧
    (1 ≤ 2 → p_total_transmission 2 (mkRat 1 2) = 1 - (1 - mkRat 1 2) ^ 2) ∧
    p_total_transmission 1 (mkRat 1 2) = mkRat 1 2 ∧
    (1 ≤ (2 : Int) → total_probability (mkRat 1 2) 2 = 1 - (1 - mkRat 1 2) ^ (2 : Int).toNat) ∧
    (({ baseAgent with du := "IDU" } : Agent).hiv = false →
      ((needle_transmission defaultParams zeroRng 0 1
          { baseAgent with hiv := true, du := "IDU" }
          { baseAgent with du := "IDU" } emptySets).1.hiv = true ↔
        (1 ≤ needle_retained zeroRng.flt (0 + 1)
            (needle_unsafe_prob defaultParams
              ({ baseAgent with hiv := true, du := "IDU" } : Agent).sne
              ({ baseAgent with hiv := true, du := "IDU" } : Agent).race
              ({ baseAgent with hiv := true, du := "IDU" } : Agent).so)
            (needle_share_acts
              ({ baseAgent with hiv := true, du := "IDU" } : Agent).sne
              (zeroRng.pois 0 (defaultParams.numSexActsParam
                ({ baseAgent with hiv := true, du := "IDU" } : Agent).race
                ({ baseAgent with hiv := true, du := "IDU" } : Agent).so *
                defaultParams.calNeedleActScaling))) ∧
          zeroRng.flt (0 + 1 + needle_share_acts
              ({ baseAgent with hiv := true, du := "IDU" } : Agent).sne
              (zeroRng.pois 0 (defaultParams.numSexActsParam
                ({ baseAgent with hiv := true, du := "IDU" } : Agent).race
                ({ baseAgent with hiv := true, du := "IDU" } : Agent).so *
                defaultParams.calNeedleActScaling))) <
            p_total_transmission
              (needle_retained zeroRng.flt (0 + 1)
                (needle_unsafe_prob defaultParams
                  ({ baseAgent with hiv := true, du := "IDU" } : Agent).sne
                  ({ baseAgent with hiv := true, du := "IDU" } : Agent).race
                  ({ baseAgent with hiv := true, du := "IDU" } : Agent).so)
                (needle_share_acts
                  ({ baseAgent with hiv := true, du := "IDU" } : Agent).sne
                  (zeroRng.pois 0 (defaultParams.numSexActsParam
                    ({ baseAgent with hiv := true, du := "IDU" } : Agent).race
                    ({ baseAgent with hiv := true, du := "IDU" } : Agent).so *
                    defaultParams.calNeedleActScaling))))
              (defaultParams.getTransmissionProb
                { baseAgent with hiv := true, du := "IDU" } "NEEDLE")))) :=
  C1_needle_transmission defaultParams "WHITE" "HM" 0 (fun _ => 0) 0
    (mkRat 1 2) (mkRat 1 2) 2 2 zeroRng 0 1
    { baseAgent with hiv := true, du := "IDU" }
    { baseAgent with du := "IDU" } emptySets

/-! ## C6 : burn-in suppression -/

/-- Pointwise form of setAgent. -/
theorem setAgent_apply (pop : Nat → Agent) (i : Nat) (a : Agent) (x : Nat) :
    setAgent pop i a x = if x = i then a else pop x := rfl

/-- Rewriting an agent with its own value is the identity pointwise. -/
theorem setAgent_same (pop : Nat → Agent) (i x : Nat) :
    setAgent pop i (pop i) x = pop x := by
  unfold setAgent
  split <;> simp_all

/-- PrEP enrollment changes no clinical flag. -/
theorem enroll_PrEP_preserves (p : Params) (rng : Rng) (c : Nat) (a : Agent)
    (s : Sets) :
    (enroll_PrEP p rng c a s).1.hiv = a.hiv ∧
    (enroll_PrEP p rng c a s).1.tested = a.tested ∧
    (enroll_PrEP p rng c a s).1.haart = a.haart ∧
    (enroll_PrEP p rng c a s).1.aids = a.aids ∧
    (enroll_PrEP p rng c a s).1.msmw = a.msmw := by
  unfold enroll_PrEP
  split_ifs <;> simp

/-- PrEP initiation changes no clinical flag. -/
theorem initiate_PrEP_preserves (p : Params) (rng : Rng) (c : Nat)
    (time : Int) (force : Bool) (a : Agent) (s : Sets) :
    (initiate_PrEP p rng c time force a s).1.hiv = a.hiv ∧
    (initiate_PrEP p rng c time force a s).1.tested = a.tested ∧
    (initiate_PrEP p rng c time force a s).1.haart = a.haart ∧
    (initiate_PrEP p rng c time force a s).1.aids = a.aids ∧
    (initiate_PrEP p rng c time force a s).1.msmw = a.msmw := by
  unfold initiate_PrEP
  split_ifs <;> simp [apply_ite, enroll_PrEP_preserves]

/-- The conversion part changes no flag other than hiv and hiv_time. -/
theorem become_HIV_core_other (p : Params) (rng : Rng) (c : Nat) (a : Agent)
    (s : Sets) :
    (become_HIV_core p rng c a s).1.tested = a.tested ∧
    (become_HIV_core p rng c a s).1.haart = a.haart ∧
    (become_HIV_core p rng c a s).1.aids = a.aids ∧
    (become_HIV_core p rng c a s).1.msmw = a.msmw := by
  unfold become_HIV_core
  split_ifs <;> simp [apply_ite]

/-- become_HIV changes no flag other than hiv and the PrEP state. -/
theorem become_HIV_other (p : Params) (rng : Rng) (c : Nat) (a : Agent)
    (s : Sets) :
    (become_HIV p rng c a s).1.tested = a.tested ∧
    (become_HIV p rng c a s).1.haart = a.haart ∧
    (become_HIV p rng c a s).1.aids = a.aids ∧
    (become_HIV p rng c a s).1.msmw = a.msmw := by
  have hc := become_HIV_core_other p rng c a s
  simp only [become_HIV]
  split
  · have hd := discont_PrEP_preserves p rng
      (become_HIV_core p rng c a s).2.2 true
      (become_HIV_core p rng c a s).1 (become_HIV_core p rng c a s).2.1
    exact ⟨hd.2.2.1.trans hc.1, hd.2.2.2.1.trans hc.2.1,
      hd.2.2.2.2.1.trans hc.2.2.1, hd.2.2.2.2.2.1.trans hc.2.2.2⟩
  · exact hc

/-- The PrEP offer sub-step changes no clinical flag of any agent. -/
theorem hr_partner_step_preserves (p : Params) (rng : Rng) (time : Int)
    (acc : (Nat → Agent) × Sets × Nat) (pid x : Nat) :
    ((hr_partner_step p rng time acc pid).1 x).hiv = (acc.1 x).hiv ∧
    ((hr_partner_step p rng time acc pid).1 x).tested = (acc.1 x).tested ∧
    ((hr_partner_step p rng time acc pid).1 x).haart = (acc.1 x).haart ∧
    ((hr_partner_step p rng time acc pid).1 x).aids = (acc.1 x).aids ∧
    ((hr_partner_step p rng time acc pid).1 x).msmw = (acc.1 x).msmw := by
  obtain ⟨pop, s, c⟩ := acc
  unfold hr_partner_step
  dsimp only
  refine ⟨?_, ?_, ?_, ?_, ?_⟩ <;>
    (split_ifs <;>
      simp only [setAgent_apply] <;>
      split_ifs <;>
      simp_all [initiate_PrEP_preserves])

/-- The high risk cascade sub-step changes no clinical flag of any
agent. -/
theorem incar_partner_hr_preserves (p : Params) (rng : Rng)
    (acc : (Nat → Agent) × Sets × Nat) (pid x : Nat) :
    ((incar_partner_hr p rng acc pid).1 x).hiv = (acc.1 x).hiv ∧
    ((incar_partner_hr p rng acc pid).1 x).tested = (acc.1 x).tested ∧
    ((incar_partner_hr p rng acc pid).1 x).haart = (acc.1 x).haart ∧
    ((incar_partner_hr p rng acc pid).1 x).aids = (acc.1 x).aids ∧
    ((incar_partner_hr p rng acc pid).1 x).msmw = (acc.1 x).msmw := by
  obtain ⟨pop, s, c⟩ := acc
  unfold incar_partner_hr
  dsimp only
  refine ⟨?_, ?_, ?_, ?_, ?_⟩ <;>
    (split_ifs <;>
      simp only [setAgent_apply] <;>
      split_ifs <;>
      simp_all)

/-- The partner cascade of an incarceration changes no clinical flag of
any agent. -/
theorem incar_partner_step_preserves (p : Params) (rng : Rng) (time : Int)
    (acc : (Nat → Agent) × Sets × Nat) (pid x : Nat) :
    ((incar_partner_step p rng time acc pid).1 x).hiv = (acc.1 x).hiv ∧
    ((incar_partner_step p rng time acc pid).1 x).tested = (acc.1 x).tested ∧
    ((incar_partner_step p rng time acc pid).1 x).haart = (acc.1 x).haart ∧
    ((incar_partner_step p rng time acc pid).1 x).aids = (acc.1 x).aids ∧
    ((incar_partner_step p rng time acc pid).1 x).msmw = (acc.1 x).msmw := by
  unfold incar_partner_step
  have h1 := incar_partner_hr_preserves p rng acc pid x
  have h2 := hr_partner_step_preserves p rng time
    (incar_partner_hr p rng acc pid) pid x
  split_ifs with hflag
  · exact ⟨h2.1.trans h1.1, h2.2.1.trans h1.2.1, h2.2.2.1.trans h1.2.2.1,
      h2.2.2.2.1.trans h1.2.2.2.1, h2.2.2.2.2.trans h1.2.2.2.2⟩
  · exact h1

/-- Folded partner cascade preserves the clinical flags. -/
theorem incar_partner_fold_preserves (p : Params) (rng : Rng) (time : Int)
    (l : List Nat) :
    ∀ (acc : (Nat → Agent) × Sets × Nat) (x : Nat),
      ((l.foldl (incar_partner_step p rng time) acc).1 x).hiv = (acc.1 x).hiv ∧
      ((l.foldl (incar_partner_step p rng time) acc).1 x).tested = (acc.1 x).tested ∧
      ((l.foldl (incar_partner_step p rng time) acc).1 x).haart = (acc.1 x).haart ∧
      ((l.foldl (incar_partner_step p rng time) acc).1 x).aids = (acc.1 x).aids ∧
      ((l.foldl (incar_partner_step p rng time) acc).1 x).msmw = (acc.1 x).msmw := by
  induction l with
  | nil => intro acc x; simp
  | cons pid l ih =>
    intro acc x
    simp only [List.foldl_cons]
    have h1 := incar_partner_step_preserves p rng time acc pid x
    have h2 := ih (incar_partner_step p rng time acc pid) x
    exact ⟨h2.1.trans h1.1, h2.2.1.trans h1.2.1, h2.2.2.1.trans h1.2.2.1,
      h2.2.2.2.1.trans h1.2.2.2.1, h2.2.2.2.2.trans h1.2.2.2.2⟩

/-- Pointwise rewrites for the folded partner cascade. -/
theorem incar_partner_fold_hiv (p : Params) (rng : Rng) (time : Int)
    (l : List Nat) (acc : (Nat → Agent) × Sets × Nat) (x : Nat) :
    ((l.foldl (incar_partner_step p rng time) acc).1 x).hiv = (acc.1 x).hiv :=
  (incar_partner_fold_preserves p rng time l acc x).1

/-- Pointwise aids rewrite for the folded partner cascade. -/
theorem incar_partner_fold_aids (p : Params) (rng : Rng) (time : Int)
    (l : List Nat) (acc : (Nat → Agent) × Sets × Nat) (x : Nat) :
    ((l.foldl (incar_partner_step p rng time) acc).1 x).aids = (acc.1 x).aids :=
  (incar_partner_fold_preserves p rng time l acc x).2.2.2.1

/-- Pointwise msmw rewrite for the folded partner cascade. -/
theorem incar_partner_fold_msmw (p : Params) (rng : Rng) (time : Int)
    (l : List Nat) (acc : (Nat → Agent) × Sets × Nat) (x : Nat) :
    ((l.foldl (incar_partner_step p rng time) acc).1 x).msmw = (acc.1 x).msmw :=
  (incar_partner_fold_preserves p rng time l acc x).2.2.2.2

set_option maxHeartbeats 1000000 in
/-- The agent-level ongoing incarceration step never changes hiv, aids
or msmw. -/
theorem incarcerate_ongoing_agent_preserves (p : Params) (rng : Rng)
    (c : Nat) (time : Int) (aid : Nat) (a : Agent) (s : Sets) :
    (incarcerate_ongoing_agent p rng c time aid a s).1.hiv = a.hiv ∧
    (incarcerate_ongoing_agent p rng c time aid a s).1.aids = a.aids ∧
    (incarcerate_ongoing_agent p rng c time aid a s).1.msmw = a.msmw := by
  unfold incarcerate_ongoing_agent
  cases a
  dsimp only
  split_ifs <;> exact ⟨rfl, rfl, rfl⟩

set_option maxHeartbeats 1000000 in
/-- The agent-level new incarceration step never changes hiv, aids or
msmw. -/
theorem incarcerate_new_agent_preserves (p : Params) (rng : Rng)
    (c : Nat) (time : Int) (aid : Nat) (a : Agent) (s : Sets) :
    (incarcerate_new_agent p rng c time aid a s).1.hiv = a.hiv ∧
    (incarcerate_new_agent p rng c time aid a s).1.aids = a.aids ∧
    (incarcerate_new_agent p rng c time aid a s).1.msmw = a.msmw := by
  unfold incarcerate_new_agent
  cases a
  dsimp only
  split_ifs <;> exact ⟨rfl, rfl, rfl⟩

/-- The ongoing incarceration step never changes hiv, aids or msmw. -/
theorem incarcerate_ongoing_preserves (p : Params) (rng : Rng) (c : Nat)
    (time : Int) (aid : Nat) (pop : Nat → Agent) (s : Sets) (x : Nat) :
    ((incarcerate_ongoing p rng c time aid pop s).1 x).hiv = (pop x).hiv ∧
    ((incarcerate_ongoing p rng c time aid pop s).1 x).aids = (pop x).aids ∧
    ((incarcerate_ongoing p rng c time aid pop s).1 x).msmw = (pop x).msmw := by
  have h := incarcerate_ongoing_agent_preserves p rng c time aid (pop aid) s
  unfold incarcerate_ongoing
  dsimp only
  refine ⟨?_, ?_, ?_⟩
  · simp only [setAgent_apply]
    split_ifs with hx
    · subst hx; exact h.1
    · rfl
  · simp only [setAgent_apply]
    split_ifs with hx
    · subst hx; exact h.2.1
    · rfl
  · simp only [setAgent_apply]
    split_ifs with hx
    · subst hx; exact h.2.2
    · rfl

/-- The new incarceration step never changes hiv, aids or msmw. -/
theorem incarcerate_new_preserves (p : Params) (rng : Rng) (c : Nat)
    (time : Int) (aid : Nat) (pop : Nat → Agent) (s : Sets) (x : Nat) :
    ((incarcerate_new p rng c time aid pop s).1 x).hiv = (pop x).hiv ∧
    ((incarcerate_new p rng c time aid pop s).1 x).aids = (pop x).aids ∧
    ((incarcerate_new p rng c time aid pop s).1 x).msmw = (pop x).msmw := by
  have h := incarcerate_new_agent_preserves p rng (c + 1) time aid (pop aid) s
  unfold incarcerate_new
  dsimp only
  split_ifs <;>
    first
    | exact ⟨rfl, rfl, rfl⟩
    | (refine ⟨?_, ?_, ?_⟩
       · rw [incar_partner_fold_hiv]
         simp only [setAgent_apply]
         split_ifs with hx
         · subst hx; exact h.1
         · rfl
       · rw [incar_partner_fold_aids]
         simp only [setAgent_apply]
         split_ifs with hx
         · subst hx; exact h.2.1
         · rfl
       · rw [incar_partner_fold_msmw]
         simp only [setAgent_apply]
         split_ifs with hx
         · subst hx; exact h.2.2
         · rfl)

/-- Incarceration never changes hiv, aids or msmw of any agent. -/
theorem incarcerate_preserves (p : Params) (rng : Rng) (c : Nat)
    (time : Int) (aid : Nat) (pop : Nat → Agent) (s : Sets) (x : Nat) :
    ((incarcerate p rng c time aid pop s).1 x).hiv = (pop x).hiv ∧
    ((incarcerate p rng c time aid pop s).1 x).aids = (pop x).aids ∧
    ((incarcerate p rng c time aid pop s).1 x).msmw = (pop x).msmw := by
  unfold incarcerate
  split_ifs
  · exact incarcerate_ongoing_preserves p rng c time aid pop s x
  · exact incarcerate_new_preserves p rng c time aid pop s x

/-- Folded PrEP offers preserve the clinical flags. -/
theorem hr_partner_fold_preserves (p : Params) (rng : Rng) (time : Int)
    (l : List Nat) :
    ∀ (acc : (Nat → Agent) × Sets × Nat) (x : Nat),
      ((l.foldl (hr_partner_step p rng time) acc).1 x).hiv = (acc.1 x).hiv ∧
      ((l.foldl (hr_partner_step p rng time) acc).1 x).tested = (acc.1 x).tested ∧
      ((l.foldl (hr_partner_step p rng time) acc).1 x).haart = (acc.1 x).haart ∧
      ((l.foldl (hr_partner_step p rng time) acc).1 x).aids = (acc.1 x).aids ∧
      ((l.foldl (hr_partner_step p rng time) acc).1 x).msmw = (acc.1 x).msmw := by
  induction l with
  | nil => intro acc x; simp
  | cons pid l ih =>
    intro acc x
    simp only [List.foldl_cons]
    have h1 := hr_partner_step_preserves p rng time acc pid x
    have h2 := ih (hr_partner_step p rng time acc pid) x
    exact ⟨h2.1.trans h1.1, h2.2.1.trans h1.2.1, h2.2.2.1.trans h1.2.2.1,
      h2.2.2.2.1.trans h1.2.2.2.1, h2.2.2.2.2.trans h1.2.2.2.2⟩

/-- The high risk phase body never changes a clinical flag. -/
theorem high_risk_step_preserves (p : Params) (rng : Rng) (time : Int)
    (pop : Nat → Agent) (s : Sets) (c : Nat) (aid x : Nat) :
    ((high_risk_step p rng time (pop, s, c) aid).1 x).hiv = (pop x).hiv ∧
    ((high_risk_step p rng time (pop, s, c) aid).1 x).tested = (pop x).tested ∧
    ((high_risk_step p rng time (pop, s, c) aid).1 x).haart = (pop x).haart ∧
    ((high_risk_step p rng time (pop, s, c) aid).1 x).aids = (pop x).aids ∧
    ((high_risk_step p rng time (pop, s, c) aid).1 x).msmw = (pop x).msmw := by
  unfold high_risk_step
  dsimp only
  split_ifs <;>
    first
    | (refine ⟨?_, ?_, ?_, ?_, ?_⟩ <;>
        (simp only [setAgent_apply]
         split_ifs <;> simp_all))
    | (refine ⟨?_, ?_, ?_, ?_, ?_⟩
       · refine ((hr_partner_fold_preserves p rng time _ _ x).1).trans ?_
         simp only [setAgent_apply]
         split_ifs <;> simp_all
       · refine ((hr_partner_fold_preserves p rng time _ _ x).2.1).trans ?_
         simp only [setAgent_apply]
         split_ifs <;> simp_all
       · refine ((hr_partner_fold_preserves p rng time _ _ x).2.2.1).trans ?_
         simp only [setAgent_apply]
         split_ifs <;> simp_all
       · refine ((hr_partner_fold_preserves p rng time _ _ x).2.2.2.1).trans ?_
         simp only [setAgent_apply]
         split_ifs <;> simp_all
       · refine ((hr_partner_fold_preserves p rng time _ _ x).2.2.2.2).trans ?_
         simp only [setAgent_apply]
         split_ifs <;> simp_all)

/-- The ageing and incarceration phase preserves msmw, aids and hiv of
every agent, and tested and haart when incarceration is disabled. -/
theorem update_agent_pre_preserves (p : Params) (rng : Rng) (time : Int)
    (aid : Nat) (pop : Nat → Agent) (s : Sets) (c : Nat) (x : Nat) :
    ((update_agent_pre p rng time aid pop s c).1 x).msmw = (pop x).msmw ∧
    ((update_agent_pre p rng time aid pop s c).1 x).aids = (pop x).aids ∧
    ((update_agent_pre p rng time aid pop s c).1 x).hiv = (pop x).hiv ∧
    (p.flagIncar = false →
      ((update_agent_pre p rng time aid pop s c).1 x).tested = (pop x).tested ∧
      ((update_agent_pre p rng time aid pop s c).1 x).haart = (pop x).haart) := by
  unfold update_agent_pre
  dsimp only
  split_ifs with hI
  · have h := incarcerate_preserves p rng c time aid
      (setAgent pop aid { pop aid with timeAlive := (pop aid).timeAlive + 1 }) s x
    have hb : ∀ y, (setAgent pop aid
        { pop aid with timeAlive := (pop aid).timeAlive + 1 } y).msmw = (pop y).msmw ∧
        (setAgent pop aid
        { pop aid with timeAlive := (pop aid).timeAlive + 1 } y).aids = (pop y).aids ∧
        (setAgent pop aid
        { pop aid with timeAlive := (pop aid).timeAlive + 1 } y).hiv = (pop y).hiv := by
      intro y
      simp only [setAgent_apply]
      split_ifs <;> simp_all
    refine ⟨h.2.2.trans (hb x).1, h.2.1.trans (hb x).2.1, h.1.trans (hb x).2.2,
      fun hf => absurd hI (by simp [hf])⟩
  · refine ⟨?_, ?_, ?_, fun _ => ⟨?_, ?_⟩⟩ <;>
      (simp only [setAgent_apply]
       split_ifs <;> simp_all)

/-- The MSMW phase preserves msmw, aids, tested and haart of every
agent, and hiv when the processed agent is not MSMW. -/
theorem update_agent_msmw_preserves (p : Params) (rng : Rng) (aid : Nat)
    (pop : Nat → Agent) (s : Sets) (c : Nat) (x : Nat) :
    ((update_agent_msmw p rng aid pop s c).1 x).msmw = (pop x).msmw ∧
    ((update_agent_msmw p rng aid pop s c).1 x).aids = (pop x).aids ∧
    ((update_agent_msmw p rng aid pop s c).1 x).tested = (pop x).tested ∧
    ((update_agent_msmw p rng aid pop s c).1 x).haart = (pop x).haart ∧
    ((pop aid).msmw = false →
      ((update_agent_msmw p rng aid pop s c).1 x).hiv = (pop x).hiv) := by
  unfold update_agent_msmw
  dsimp only
  split_ifs with h1 h2
  · have hb := become_HIV_other p rng (c + 1) (pop aid) s
    refine ⟨?_, ?_, ?_, ?_, fun hm => absurd h1 (by simp [hm])⟩ <;>
      (simp only [setAgent_apply]
       split_ifs <;> simp_all)
  · exact ⟨rfl, rfl, rfl, rfl, fun _ => rfl⟩
  · exact ⟨rfl, rfl, rfl, rfl, fun _ => rfl⟩

/-- During burn the clinical phase returns ok and changes no clinical
flag of any agent. -/
theorem update_agent_clinical_burn (p : Params) (rng : Rng) (time : Int)
    (aid : Nat) (pop : Nat → Agent) (s : Sets) (c : Nat) :
    ∃ q, update_agent_clinical p rng true time aid pop s c = .ok q ∧
      ∀ x, (q.1 x).hiv = (pop x).hiv ∧ (q.1 x).tested = (pop x).tested ∧
        (q.1 x).haart = (pop x).haart ∧ (q.1 x).aids = (pop x).aids ∧
        (q.1 x).msmw = (pop x).msmw := by
  unfold update_agent_clinical
  dsimp only
  split_ifs with h1 h2 h3 h4 h5 h6 h7
  all_goals refine ⟨_, rfl, fun x => ?_⟩
  all_goals
    first
    | exact ⟨rfl, rfl, rfl, rfl, rfl⟩
    | (have hd := discont_PrEP_preserves p rng c false (pop aid) s
       have hi := initiate_PrEP_preserves p rng c time false (pop aid) s
       refine ⟨?_, ?_, ?_, ?_, ?_⟩ <;>
         (simp only [setAgent_apply]
          split_ifs <;> simp_all))
    | (refine ⟨?_, ?_, ?_, ?_, ?_⟩ <;>
        (simp only [setAgent_apply]
         split_ifs <;> simp_all))

/-- During burn the per-agent body returns ok; msmw and aids are never
changed, hiv changes only through the MSMW branch of the processed
agent, and tested and haart change only through incarceration. -/
theorem update_agent_step_burn (p : Params) (rng : Rng) (time : Int)
    (pop : Nat → Agent) (s : Sets) (c : Nat) (aid : Nat) :
    ∃ q, update_agent_step p rng true time (pop, s, c) aid = .ok q ∧
      (∀ x, (q.1 x).msmw = (pop x).msmw) ∧
      (∀ x, (q.1 x).aids = (pop x).aids) ∧
      ((pop aid).msmw = false → ∀ x, (q.1 x).hiv = (pop x).hiv) ∧
      (p.flagIncar = false →
        ∀ x, (q.1 x).tested = (pop x).tested ∧
          (q.1 x).haart = (pop x).haart) := by
  unfold update_agent_step
  dsimp only
  obtain ⟨q, hq, hfields⟩ := update_agent_clinical_burn p rng time aid
    (update_agent_msmw p rng aid
      (update_agent_pre p rng time aid pop s c).1
      (update_agent_pre p rng time aid pop s c).2.1
      (update_agent_pre p rng time aid pop s c).2.2).1
    (update_agent_msmw p rng aid
      (update_agent_pre p rng time aid pop s c).1
      (update_agent_pre p rng time aid pop s c).2.1
      (update_agent_pre p rng time aid pop s c).2.2).2.1
    (update_agent_msmw p rng aid
      (update_agent_pre p rng time aid pop s c).1
      (update_agent_pre p rng time aid pop s c).2.1
      (update_agent_pre p rng time aid pop s c).2.2).2.2
  refine ⟨q, hq, ?_, ?_, ?_, ?_⟩
  · intro x
    have h1 := update_agent_pre_preserves p rng time aid pop s c x
    have h2 := update_agent_msmw_preserves p rng aid
      (update_agent_pre p rng time aid pop s c).1
      (update_agent_pre p rng time aid pop s c).2.1
      (update_agent_pre p rng time aid pop s c).2.2 x
    exact ((hfields x).2.2.2.2.trans h2.1).trans h1.1
  · intro x
    have h1 := update_agent_pre_preserves p rng time aid pop s c x
    have h2 := update_agent_msmw_preserves p rng aid
      (update_agent_pre p rng time aid pop s c).1
      (update_agent_pre p rng time aid pop s c).2.1
      (update_agent_pre p rng time aid pop s c).2.2 x
    exact ((hfields x).2.2.2.1.trans h2.2.1).trans h1.2.1
  · intro hm x
    have h1 := update_agent_pre_preserves p rng time aid pop s c x
    have h2 := update_agent_msmw_preserves p rng aid
      (update_agent_pre p rng time aid pop s c).1
      (update_agent_pre p rng time aid pop s c).2.1
      (update_agent_pre p rng time aid pop s c).2.2 x
    have hmid : ((update_agent_pre p rng time aid pop s c).1 aid).msmw = false := by
      have := (update_agent_pre_preserves p rng time aid pop s c aid).1
      rw [this, hm]
    exact ((hfields x).1.trans (h2.2.2.2.2 hmid)).trans h1.2.2.1
  · intro hf x
    have h1 := update_agent_pre_preserves p rng time aid pop s c x
    have h2 := update_agent_msmw_preserves p rng aid
      (update_agent_pre p rng time aid pop s c).1
      (update_agent_pre p rng time aid pop s c).2.1
      (update_agent_pre p rng time aid pop s c).2.2 x
    exact ⟨((hfields x).2.1.trans h2.2.2.1).trans (h1.2.2.2 hf).1,
      ((hfields x).2.2.1.trans h2.2.2.2.1).trans (h1.2.2.2 hf).2⟩

/-- Unbonding changes only partner lists. -/
theorem unbond_preserves (pop : Nat → Agent) (r : Rel) (x : Nat) :
    ((unbond pop r) x).hiv = (pop x).hiv ∧
    ((unbond pop r) x).tested = (pop x).tested ∧
    ((unbond pop r) x).haart = (pop x).haart ∧
    ((unbond pop r) x).aids = (pop x).aids ∧
    ((unbond pop r) x).msmw = (pop x).msmw := by
  unfold unbond
  refine ⟨?_, ?_, ?_, ?_, ?_⟩ <;>
    (simp only [setAgent_apply]
     split_ifs <;> simp_all)

/-- During burn the relationship loop body returns ok and changes no
clinical flag of any agent. -/
theorem rel_phase_step_burn (p : Params) (rng : Rng) (time : Int)
    (pop : Nat → Agent) (keep : List Rel) (s : Sets) (c : Nat) (r : Rel) :
    ∃ q, rel_phase_step p rng true time (pop, keep, s, c) r = .ok q ∧
      ∀ x, (q.1 x).hiv = (pop x).hiv ∧ (q.1 x).tested = (pop x).tested ∧
        (q.1 x).haart = (pop x).haart ∧ (q.1 x).aids = (pop x).aids ∧
        (q.1 x).msmw = (pop x).msmw := by
  have hfun : setAgent (setAgent pop r.id1 (pop r.id1)) r.id2
      (pop r.id2) = pop := by
    funext y
    simp only [setAgent_apply]
    split_ifs <;> simp_all
  unfold rel_phase_step
  dsimp only
  rw [hfun]
  split_ifs with h1 h2
  · exact ⟨_, rfl, fun x => ⟨rfl, rfl, rfl, rfl, rfl⟩⟩
  · exact ⟨_, rfl, fun x => unbond_preserves pop _ x⟩
  · exact ⟨_, rfl, fun x => ⟨rfl, rfl, rfl, rfl, rfl⟩⟩

/-- Invariant propagation through an Except foldlM. -/
theorem foldlM_except_inv {α σ : Type} {P : σ → Prop}
    {f : σ → α → Except String σ}
    (hf : ∀ s a t, f s a = .ok t → P s → P t) :
    ∀ (l : List α) (s t : σ), List.foldlM f s l = .ok t → P s → P t := by
  intro l
  induction l with
  | nil =>
    intro s t h hp
    simp only [List.foldlM_nil] at h
    cases h
    exact hp
  | cons a l ih =>
    intro s t h hp
    simp only [List.foldlM_cons] at h
    cases hfa : f s a with
    | error e =>
      rw [hfa] at h
      simp only [bind, Except.bind] at h
      cases h
    | ok s2 =>
      rw [hfa] at h
      simp only [bind, Except.bind] at h
      exact ih s2 t h (hf s a s2 hfa hp)

/-- Invariant propagation through a pure foldl. -/
theorem foldl_inv {α σ : Type} {P : σ → Prop} {f : σ → α → σ}
    (hf : ∀ s a, P s → P (f s a)) :
    ∀ (l : List α) (s : σ), P s → P (l.foldl f s) := by
  intro l
  induction l with
  | nil => intro s hp; simpa using hp
  | cons a l ih => intro s hp; simpa using ih (f s a) (hf s a hp)

/-- C6 amended: during a burn update no relationship interaction runs
and the per-agent diagnosis, AIDS progression and HAART updates are
suppressed: aids never changes, msmw never changes, an agents hiv flag
can change only through the MSMW seroconversion check (which still runs
during burn), and tested and haart change only through incarceration
processing; partnership turnover and death/replacement stay possible
outside this call. -/
theorem C6_burn_amended (p : Params) (rng : Rng) (time : Int)
    (st st2 : PopState)
    (hok : update_AllAgents_core p rng true time st = .ok st2) :
    (∀ x, (st2.pop x).msmw = (st.pop x).msmw) ∧
    (∀ x, (st2.pop x).aids = (st.pop x).aids) ∧
    ((∀ x, (st.pop x).msmw = false) →
      ∀ x, (st2.pop x).hiv = (st.pop x).hiv) ∧
    (p.flagIncar = false →
      ∀ x, (st2.pop x).tested = (st.pop x).tested ∧
        (st2.pop x).haart = (st.pop x).haart) := by
  have hstep1 : ∀ (a : (Nat → Agent) × List Rel × Sets × Nat) (r : Rel)
      (t : (Nat → Agent) × List Rel × Sets × Nat),
      rel_phase_step p rng true time a r = .ok t →
      (∀ x, (t.1 x).hiv = (a.1 x).hiv ∧ (t.1 x).tested = (a.1 x).tested ∧
        (t.1 x).haart = (a.1 x).haart ∧ (t.1 x).aids = (a.1 x).aids ∧
        (t.1 x).msmw = (a.1 x).msmw) := by
    intro a r t heq
    obtain ⟨pop, keep, sets, c⟩ := a
    obtain ⟨q, hq, hfields⟩ := rel_phase_step_burn p rng time pop keep sets c r
    rw [hq] at heq
    cases heq
    exact hfields
  have hstep3 : ∀ (a : (Nat → Agent) × Sets × Nat) (aid : Nat)
      (t : (Nat → Agent) × Sets × Nat),
      update_agent_step p rng true time a aid = .ok t →
      ((∀ x, (t.1 x).msmw = (a.1 x).msmw) ∧
       (∀ x, (t.1 x).aids = (a.1 x).aids) ∧
       ((a.1 aid).msmw = false → ∀ x, (t.1 x).hiv = (a.1 x).hiv) ∧
       (p.flagIncar = false →
         ∀ x, (t.1 x).tested = (a.1 x).tested ∧
           (t.1 x).haart = (a.1 x).haart)) := by
    intro a aid t heq
    obtain ⟨pop, sets, c⟩ := a
    obtain ⟨q, hq, h1, h2, h3, h4⟩ := update_agent_step_burn p rng time
      pop sets c aid
    rw [hq] at heq
    cases heq
    exact ⟨h1, h2, h3, h4⟩
  have hstep3inv : ∀ (a : (Nat → Agent) × Sets × Nat) (aid : Nat)
      (t : (Nat → Agent) × Sets × Nat),
      update_agent_step p rng true time a aid = .ok t →
      ((∀ x, (a.1 x).msmw = (st.pop x).msmw) ∧
       (∀ x, (a.1 x).aids = (st.pop x).aids) ∧
       ((∀ x, (st.pop x).msmw = false) →
         ∀ x, (a.1 x).hiv = (st.pop x).hiv) ∧
       (p.flagIncar = false →
         ∀ x, (a.1 x).tested = (st.pop x).tested ∧
           (a.1 x).haart = (st.pop x).haart)) →
      ((∀ x, (t.1 x).msmw = (st.pop x).msmw) ∧
       (∀ x, (t.1 x).aids = (st.pop x).aids) ∧
       ((∀ x, (st.pop x).msmw = false) →
         ∀ x, (t.1 x).hiv = (st.pop x).hiv) ∧
       (p.flagIncar = false →
         ∀ x, (t.1 x).tested = (st.pop x).tested ∧
           (t.1 x).haart = (st.pop x).haart)) := by
    intro a aid t heq hPa
    obtain ⟨h1, h2, h3, h4⟩ := hstep3 a aid t heq
    refine ⟨fun x => (h1 x).trans (hPa.1 x),
      fun x => (h2 x).trans (hPa.2.1 x),
      fun hm x => ?_,
      fun hfl x => ⟨((h4 hfl) x).1.trans ((hPa.2.2.2 hfl) x).1,
        ((h4 hfl) x).2.trans ((hPa.2.2.2 hfl) x).2⟩⟩
    have hmaid : (a.1 aid).msmw = false := by
      rw [hPa.1 aid]
      exact hm aid
    exact (h3 hmaid x).trans (hPa.2.2.1 hm x)
  have hrstep : ∀ (a : (Nat → Agent) × Sets × Nat) (aid : Nat),
      ((∀ x, (a.1 x).msmw = (st.pop x).msmw) ∧
       (∀ x, (a.1 x).aids = (st.pop x).aids) ∧
       ((∀ x, (st.pop x).msmw = false) →
         ∀ x, (a.1 x).hiv = (st.pop x).hiv) ∧
       (p.flagIncar = false →
         ∀ x, (a.1 x).tested = (st.pop x).tested ∧
           (a.1 x).haart = (st.pop x).haart)) →
      ((∀ x, ((high_risk_step p rng time a aid).1 x).msmw = (st.pop x).msmw) ∧
       (∀ x, ((high_risk_step p rng time a aid).1 x).aids = (st.pop x).aids) ∧
       ((∀ x, (st.pop x).msmw = false) →
         ∀ x, ((high_risk_step p rng time a aid).1 x).hiv = (st.pop x).hiv) ∧
       (p.flagIncar = false →
         ∀ x, ((high_risk_step p rng time a aid).1 x).tested
             = (st.pop x).tested ∧
           ((high_risk_step p rng time a aid).1 x).haart
             = (st.pop x).haart)) := by
    intro a aid hPa
    obtain ⟨pop, sets, c⟩ := a
    have hf := fun x => high_risk_step_preserves p rng time pop sets c aid x
    exact ⟨fun x => (hf x).2.2.2.2.trans (hPa.1 x),
      fun x => (hf x).2.2.2.1.trans (hPa.2.1 x),
      fun hm x => (hf x).1.trans (hPa.2.2.1 hm x),
      fun hfl x => ⟨(hf x).2.1.trans ((hPa.2.2.2 hfl) x).1,
        (hf x).2.2.1.trans ((hPa.2.2.2 hfl) x).2⟩⟩
  have hstep1inv : ∀ (a : (Nat → Agent) × List Rel × Sets × Nat) (r : Rel)
      (t : (Nat → Agent) × List Rel × Sets × Nat),
      rel_phase_step p rng true time a r = .ok t →
      ((∀ x, (a.1 x).msmw = (st.pop x).msmw) ∧
       (∀ x, (a.1 x).aids = (st.pop x).aids) ∧
       ((∀ x, (st.pop x).msmw = false) →
         ∀ x, (a.1 x).hiv = (st.pop x).hiv) ∧
       (p.flagIncar = false →
         ∀ x, (a.1 x).tested = (st.pop x).tested ∧
           (a.1 x).haart = (st.pop x).haart)) →
      ((∀ x, (t.1 x).msmw = (st.pop x).msmw) ∧
       (∀ x, (t.1 x).aids = (st.pop x).aids) ∧
       ((∀ x, (st.pop x).msmw = false) →
         ∀ x, (t.1 x).hiv = (st.pop x).hiv) ∧
       (p.flagIncar = false →
         ∀ x, (t.1 x).tested = (st.pop x).tested ∧
           (t.1 x).haart = (st.pop x).haart)) := by
    intro a r t heq hPa
    have hf := hstep1 a r t heq
    exact ⟨fun x => (hf x).2.2.2.2.trans (hPa.1 x),
      fun x => (hf x).2.2.2.1.trans (hPa.2.1 x),
      fun hm x => (hf x).1.trans (hPa.2.2.1 hm x),
      fun hfl x => ⟨(hf x).2.1.trans ((hPa.2.2.2 hfl) x).1,
        (hf x).2.2.1.trans ((hPa.2.2.2 hfl) x).2⟩⟩
  unfold update_AllAgents_core at hok
  dsimp only at hok
  split at hok
  · exact Except.noConfusion hok
  · rename_i q1 heq1
    have hP1 := foldlM_except_inv
      (P := fun (a : (Nat → Agent) × List Rel × Sets × Nat) =>
        (∀ x, (a.1 x).msmw = (st.pop x).msmw) ∧
        (∀ x, (a.1 x).aids = (st.pop x).aids) ∧
        ((∀ x, (st.pop x).msmw = false) →
          ∀ x, (a.1 x).hiv = (st.pop x).hiv) ∧
        (p.flagIncar = false →
          ∀ x, (a.1 x).tested = (st.pop x).tested ∧
            (a.1 x).haart = (st.pop x).haart))
      hstep1inv st.rels _ q1 heq1
      ⟨fun x => rfl, fun x => rfl, fun _ x => rfl, fun _ x => ⟨rfl, rfl⟩⟩
    split at hok
    · exact Except.noConfusion hok
    · rename_i w heq2
      cases hok
      split at heq2
      · have hPmid := foldl_inv
          (P := fun (a : (Nat → Agent) × Sets × Nat) =>
            (∀ x, (a.1 x).msmw = (st.pop x).msmw) ∧
            (∀ x, (a.1 x).aids = (st.pop x).aids) ∧
            ((∀ x, (st.pop x).msmw = false) →
              ∀ x, (a.1 x).hiv = (st.pop x).hiv) ∧
            (p.flagIncar = false →
              ∀ x, (a.1 x).tested = (st.pop x).tested ∧
                (a.1 x).haart = (st.pop x).haart))
          hrstep q1.2.2.1.highriskAgents (q1.1, q1.2.2.1, q1.2.2.2)
          ⟨hP1.1, hP1.2.1, hP1.2.2.1, hP1.2.2.2⟩
        have hP3 := foldlM_except_inv
          (P := fun (a : (Nat → Agent) × Sets × Nat) =>
            (∀ x, (a.1 x).msmw = (st.pop x).msmw) ∧
            (∀ x, (a.1 x).aids = (st.pop x).aids) ∧
            ((∀ x, (st.pop x).msmw = false) →
              ∀ x, (a.1 x).hiv = (st.pop x).hiv) ∧
            (p.flagIncar = false →
              ∀ x, (a.1 x).tested = (st.pop x).tested ∧
                (a.1 x).haart = (st.pop x).haart))
          hstep3inv st.ids _ w heq2 hPmid
        exact ⟨hP3.1, hP3.2.1, hP3.2.2.1, hP3.2.2.2⟩
      · have hP3 := foldlM_except_inv
          (P := fun (a : (Nat → Agent) × Sets × Nat) =>
            (∀ x, (a.1 x).msmw = (st.pop x).msmw) ∧
            (∀ x, (a.1 x).aids = (st.pop x).aids) ∧
            ((∀ x, (st.pop x).msmw = false) →
              ∀ x, (a.1 x).hiv = (st.pop x).hiv) ∧
            (p.flagIncar = false →
              ∀ x, (a.1 x).tested = (st.pop x).tested ∧
                (a.1 x).haart = (st.pop x).haart))
          hstep3inv st.ids _ w heq2
          ⟨hP1.1, hP1.2.1, hP1.2.2.1, hP1.2.2.2⟩
        exact ⟨hP3.1, hP3.2.1, hP3.2.2.1, hP3.2.2.2⟩

/-- C6 witness: the amended theorem applied at a concrete burn update
whose success is checked by reduction. -/
theorem C6_burn_amended_witness :
    update_AllAgents_core defaultParams zeroRng true 1 emptyStateC6 =
      .ok emptyStateC6 ∧
    (emptyStateC6.pop 0).msmw = (emptyStateC6.pop 0).msmw :=
  ⟨rfl, (C6_burn_amended defaultParams zeroRng 1 emptyStateC6 emptyStateC6
    rfl).1 0⟩

/-- C6 counterexample: with burn = true the MSMW seroconversion check
still runs, so the single MSMW agent converts from HIV-negative to
HIV+ and joins new_infections during burn, contradicting the claim
that no hiv flag changes from false to true and that the cumulative
new-infection count is unchanged over burn. -/
theorem C6_burn_counterexample :
    (update_AllAgents_core defaultParams zeroRng true 1 burnStateC6).map
        (fun st2 => ((st2.pop 0).hiv, st2.sets.newInfections)) =
      .ok (true, [0]) ∧
    (burnStateC6.pop 0).hiv = false ∧
    burnStateC6.sets.newInfections = [] := by
  refine ⟨?_, rfl, rfl⟩
  have hdraw : (0 : Rat) < 1/10 := by norm_num
  norm_num [update_AllAgents_core, update_agent_step, update_agent_pre,
    update_agent_msmw, update_agent_clinical, become_HIV, become_HIV_core,
    discont_PrEP, setAgent, addTo, burnStateC6, msmwAgentC6, emptySets,
    defaultParams, zeroRng, baseAgent, List.foldlM_nil, List.foldlM_cons,
    bind, Except.bind, pure, Except.pure, Except.map, hdraw]

/-! ## C7 : termination of the partner assignment loop -/

/-- An empty queue is a fixed point of the loop body. -/
theorem paStep_nil (target : Nat → Nat) (bp : Nat)
    (oracle : Nat → Nat → Option Nat) (s : PAState)
    (h : s.queue = []) : paStep target bp oracle s = s := by
  unfold paStep
  rw [h]

/-- Every iteration on a nonempty queue strictly decreases the loop
measure: the popped agent either leaves the queue, or is requeued with
a strictly smaller partner slack or attempt budget. -/
theorem paMeasure_decrease (target : Nat → Nat) (bp : Nat)
    (oracle : Nat → Nat → Option Nat) (s : PAState) (a : Nat)
    (rest : List Nat) (hq : s.queue = a :: rest) :
    paMeasure target bp (paStep target bp oracle s) <
      paMeasure target bp s := by
  unfold paStep
  rw [hq]
  dsimp only
  by_cases h1 : s.partners a < target a
  · rw [if_pos h1]
    cases ho : oracle s.iter a with
    | some b =>
      dsimp only
      have hmono : (rest.map (fun x =>
          target x - (if x = a ∨ x = b then s.partners x + 1
            else s.partners x) + (bp - s.attempts x))).sum ≤
          (rest.map (fun x =>
            target x - s.partners x + (bp - s.attempts x))).sum := by
        refine List.sum_le_sum ?_
        intro i hi
        have h2 : s.partners i ≤ if i = a ∨ i = b then s.partners i + 1
            else s.partners i := by
          split_ifs <;> omega
        exact Nat.add_le_add_right (Nat.sub_le_sub_left h2 (target i)) _
      by_cases h3 : (if a = a ∨ a = b then s.partners a + 1
          else s.partners a) < target a ∧ s.attempts a < bp
      · rw [if_pos h3]
        rw [if_pos (Or.inl rfl)] at h3
        simp only [paMeasure, hq, List.length_append, List.length_cons,
          List.map_append, List.map_cons, List.sum_append, List.sum_cons,
          List.map_nil, List.sum_nil, List.length_nil, true_or, if_true]
        omega
      · rw [if_neg h3]
        simp only [paMeasure, hq, List.length_cons, List.map_cons,
          List.sum_cons]
        omega
    | none =>
      dsimp only
      have hmono : (rest.map (fun x =>
          target x - s.partners x +
            (bp - (if x = a then s.attempts x + 1
              else s.attempts x)))).sum ≤
          (rest.map (fun x =>
            target x - s.partners x + (bp - s.attempts x))).sum := by
        refine List.sum_le_sum ?_
        intro i hi
        have h2 : s.attempts i ≤ if i = a then s.attempts i + 1
            else s.attempts i := by
          split_ifs <;> omega
        exact Nat.add_le_add_left (Nat.sub_le_sub_left h2 bp) _
      by_cases h3 : s.partners a < target a ∧
          (if a = a then s.attempts a + 1 else s.attempts a) < bp
      · rw [if_pos h3]
        rw [if_pos rfl] at h3
        simp only [paMeasure, hq, List.length_append, List.length_cons,
          List.map_append, List.map_cons, List.sum_append, List.sum_cons,
          List.map_nil, List.sum_nil, List.length_nil, if_true]
        omega
      · rw [if_neg h3]
        simp only [paMeasure, hq, List.length_cons, List.map_cons,
          List.sum_cons]
        omega
  · rw [if_neg h1]
    simp only [paMeasure, hq, List.length_cons, List.map_cons,
      List.sum_cons]
    omega

/-- Iterating the loop body as many times as the measure empties the
queue. -/
theorem paStep_iterate_empty (target : Nat → Nat) (bp : Nat)
    (oracle : Nat → Nat → Option Nat) :
    ∀ (m : Nat) (s : PAState), paMeasure target bp s ≤ m →
      ((paStep target bp oracle)^[m] s).queue = [] := by
  intro m
  induction m with
  | zero =>
    intro s hm
    rw [Function.iterate_zero_apply]
    have h0 : s.queue.length = 0 := by
      unfold paMeasure at hm
      omega
    exact List.length_eq_zero.mp h0
  | succ m ih =>
    intro s hm
    rw [Function.iterate_succ_apply]
    cases hq : s.queue with
    | nil =>
      rw [paStep_nil target bp oracle s hq]
      apply ih
      have h0 : paMeasure target bp s = 0 := by
        unfold paMeasure
        rw [hq]
        simp
      omega
    | cons a rest =>
      apply ih
      have hdec := paMeasure_decrease target bp oracle s a rest hq
      omega

/-- C7 amended: the per-step partnership assignment loop terminates,
but the requeue test uses the post-update partner and attempt counts
and an iteration that pops an agent already at target changes neither
count: the popped agent is re-enqueued only if after the update it is
still under its target partner count with strictly fewer than
break_point attempts, every iteration on a nonempty queue strictly
decreases the combined measure of queue length, partner slack and
attempt budget, and the queue empties after at most that measure many
iterations. -/
theorem C7_partner_loop_amended (target : Nat → Nat) (bp : Nat)
    (oracle : Nat → Nat → Option Nat) (s : PAState) (a : Nat)
    (rest : List Nat) (hq : s.queue = a :: rest) :
    ((paStep target bp oracle s).queue = rest ++ [a] →
      (paStep target bp oracle s).partners a < target a ∧
        (paStep target bp oracle s).attempts a < bp) ∧
    paMeasure target bp (paStep target bp oracle s) <
      paMeasure target bp s ∧
    ∃ n, n ≤ paMeasure target bp s ∧
      ((paStep target bp oracle)^[n] s).queue = [] := by
  refine ⟨?_, paMeasure_decrease target bp oracle s a rest hq,
    paMeasure target bp s, le_refl _,
    paStep_iterate_empty target bp oracle _ s (le_refl _)⟩
  intro hreq
  have hne : rest ++ [a] ≠ rest := by
    intro h
    have := congrArg List.length h
    simp at this
  unfold paStep at hreq ⊢
  rw [hq] at hreq ⊢
  dsimp only at hreq ⊢
  by_cases h1 : s.partners a < target a
  · rw [if_pos h1] at hreq ⊢
    cases ho : oracle s.iter a with
    | some b =>
      rw [ho] at hreq
      dsimp only at hreq ⊢
      by_cases h3 : (if a = a ∨ a = b then s.partners a + 1
          else s.partners a) < target a ∧ s.attempts a < bp
      · exact h3
      · rw [if_neg h3] at hreq
        exact absurd hreq.symm hne
    | none =>
      rw [ho] at hreq
      dsimp only at hreq ⊢
      by_cases h3 : s.partners a < target a ∧
          (if a = a then s.attempts a + 1 else s.attempts a) < bp
      · exact h3
      · rw [if_neg h3] at hreq
        exact absurd hreq.symm hne
  · rw [if_neg h1] at hreq
    dsimp only at hreq
    exact absurd hreq.symm hne

/-- C7 witness: the amended theorem at the concrete two-agent queue. -/
theorem C7_partner_loop_amended_witness :
    paState0C7.queue = 0 :: [1] ∧
    paMeasure paTargetC7 3 (paStep paTargetC7 3 paOracleC7 paState0C7) <
      paMeasure paTargetC7 3 paState0C7 :=
  ⟨rfl, (C7_partner_loop_amended paTargetC7 3 paOracleC7 paState0C7 0 [1]
    rfl).2.1⟩

/-- C7 counterexample: the first iteration matches agent 0 with agent
1, bringing both to target; the second iteration pops agent 1, runs
(the iteration counter advances and the queue empties) yet changes
neither the partner count nor the attempt count of agent 1,
contradicting the claim that every iteration increases the popped
agent partner count or increments its attempt count. -/
theorem C7_partner_loop_counterexample :
    (paStep paTargetC7 3 paOracleC7 paState0C7).queue = [1] ∧
    (paStep paTargetC7 3 paOracleC7 paState0C7).partners 1 = 1 ∧
    (paStep paTargetC7 3 paOracleC7
        (paStep paTargetC7 3 paOracleC7 paState0C7)).iter =
      (paStep paTargetC7 3 paOracleC7 paState0C7).iter + 1 ∧
    (paStep paTargetC7 3 paOracleC7
        (paStep paTargetC7 3 paOracleC7 paState0C7)).partners 1 =
      (paStep paTargetC7 3 paOracleC7 paState0C7).partners 1 ∧
    (paStep paTargetC7 3 paOracleC7
        (paStep paTargetC7 3 paOracleC7 paState0C7)).attempts 1 =
      (paStep paTargetC7 3 paOracleC7 paState0C7).attempts 1 ∧
    (paStep paTargetC7 3 paOracleC7
        (paStep paTargetC7 3 paOracleC7 paState0C7)).queue = [] :=
  ⟨rfl, rfl, rfl, rfl, rfl, rfl⟩

end Titan